import Mathlib

/-!
Shallow embedding of the Policy Digitalization and Evaluation Core
(`backend/policy_digitalization/evaluator.py`, `impact_analyzer.py`,
`pipeline.py`) together with theorems settling the frozen claims.

Python numbers (int/float) are modelled by `Int`/`ℚ`; Python strings by
`String`; `Optional[T]` by `Option T`; Python dicts keyed by strings by
association lists in insertion order.  Fallible control flow is modelled
with `Option`/`Except`.  All definitions are executable.
-/

set_option maxHeartbeats 1000000

namespace PolicyCore

/-- Verdict enum from evaluator.py (`CriterionVerdict`). -/
inductive CriterionVerdict where
  | met
  | not_met
  | insufficient_data
  | not_applicable
deriving DecidableEq, Repr

/-- Logical group operators (`LogicalOperator` in the policy schema): AND, OR, NOT. -/
inductive LogicalOperator where
  | AND
  | OR
  | NOT
deriving DecidableEq, Repr

/-- String value of a logical operator (Python `operator.value`). -/
def LogicalOperator.value : LogicalOperator → String
  | .AND => "AND"
  | .OR => "OR"
  | .NOT => "NOT"

/-- Comparison operators (`ComparisonOperator` in the policy schema). -/
inductive ComparisonOperator where
  | gte
  | gt
  | lt
  | lte
  | eq
  | neq
  | between
  | in_op
  | not_in
deriving DecidableEq, Repr

/-- Criterion kinds registered in `EVALUATOR_REGISTRY` (decorators in evaluator.py). -/
inductive CriterionType where
  | age
  | gender
  | diagnosis_confirmed
  | diagnosis_severity
  | prior_treatment_tried
  | prior_treatment_failed
  | prior_treatment_intolerant
  | prior_treatment_contraindicated
  | prior_treatment_duration
  | lab_value
  | lab_test_completed
  | safety_screening_completed
  | safety_screening_negative
  | prescriber_specialty
  | prescriber_consultation
  | documentation_present
  | clinical_marker_present
  | disease_duration
  | concurrent_therapy
  | no_concurrent_therapy
  | custom
deriving DecidableEq, Repr

/-- A scalar as it appears in criterion threshold fields.  `num q` covers every
value Python `_safe_float` accepts (ints, finite floats, numeric strings);
`nonNumeric s` covers every value it rejects (non-numeric strings, booleans,
NaN and infinities). -/
inductive PyScalar where
  | num (q : ℚ)
  | nonNumeric (s : String)
deriving DecidableEq, Repr

/-- Python truthiness of a scalar (`0`, `0.0` and `""` are falsy). -/
def PyScalar.truthy : PyScalar → Bool
  | .num q => q ≠ 0
  | .nonNumeric s => s ≠ ""

/-- Python `str()` of a scalar (used by evaluate_gender). -/
def PyScalar.toStr : PyScalar → String
  | .num q => toString q
  | .nonNumeric s => s

/-- Clinical code record (`ClinicalCode` in the policy schema). -/
structure ClinicalCode where
  system : String
  code : String
deriving DecidableEq, Repr

/-- Atomic criterion record (`AtomicCriterion` in the policy schema).
Fields never read by the embedded evaluator code (e.g. `policy_text`,
`category`, `extraction_confidence`) are omitted; no embedded function
depends on them. -/
structure AtomicCriterion where
  criterion_id : String
  criterion_type : CriterionType
  name : String
  description : String
  clinical_codes : List ClinicalCode
  comparison_operator : Option ComparisonOperator
  threshold_value : Option PyScalar
  threshold_value_upper : Option PyScalar
  allowed_values : List String
  drug_names : List String
  drug_classes : List String
  minimum_duration_days : Option Int
  is_required : Bool
deriving DecidableEq, Repr

/-- Criterion group node (`CriterionGroup` in the policy schema). -/
structure CriterionGroup where
  group_id : String
  name : String
  operator : LogicalOperator
  criteria : List String
  subgroups : List String
  negated : Bool
deriving DecidableEq, Repr

/-- Indication record (`IndicationCriteria`); only fields read by
`evaluate_policy` are kept. -/
structure IndicationCriteria where
  indication_id : String
  indication_name : String
  indication_codes : List String
  initial_approval_criteria : String
deriving DecidableEq, Repr

/-- Step-therapy requirement record (`StepTherapyRequirement`). -/
structure StepTherapyRequirement where
  requirement_id : String
  indication : String
  required_drugs : List String
  required_drug_classes : List String
  minimum_trials : Nat
  minimum_duration_days : Option Int
  failure_required : Bool
  intolerance_acceptable : Bool
  contraindication_acceptable : Bool
deriving DecidableEq, Repr

/-- Exclusion record (`Exclusion`). -/
structure Exclusion where
  exclusion_id : String
  trigger_criteria : List String
deriving DecidableEq, Repr

/-- The aggregate policy record (`DigitizedPolicy`).  The Python dicts
`atomic_criteria` and `criterion_groups` are association lists in
insertion order. -/
structure DigitizedPolicy where
  policy_id : String
  atomic_criteria : List (String × AtomicCriterion)
  criterion_groups : List (String × CriterionGroup)
  indications : List IndicationCriteria
  exclusions : List Exclusion
  step_therapy_requirements : List StepTherapyRequirement
deriving DecidableEq, Repr

/-- Modelled from the spec: `DigitizedPolicy.get_criterion` lives in
`backend/models/policy_schema.py`, which is not in the source tree; per the
spec, `atomic_criteria` is a mapping criterion_id → AtomicCriterion, so the
getter is a map lookup. -/
def DigitizedPolicy.get_criterion (pol : DigitizedPolicy) (cid : String) : Option AtomicCriterion :=
  (pol.atomic_criteria.find? (fun p => p.1 = cid)).map (·.2)

/-- Modelled from the spec: `DigitizedPolicy.get_group` (see
`get_criterion`); `criterion_groups` is a mapping group_id → CriterionGroup. -/
def DigitizedPolicy.get_group (pol : DigitizedPolicy) (gid : String) : Option CriterionGroup :=
  (pol.criterion_groups.find? (fun p => p.1 = gid)).map (·.2)

/-- Prior treatment record (`NormalizedTreatment` in patient_data_adapter.py). -/
structure NormalizedTreatment where
  medication_name : String
  drug_class : Option String
  duration_weeks : Option Int
  outcome : Option String
  adequate_trial : Bool
deriving DecidableEq, Repr

/-- Lab result record (`NormalizedLabResult`). -/
structure NormalizedLabResult where
  test_name : String
  loinc_code : Option String
  value : Option ℚ
  unit : Option String
deriving DecidableEq, Repr

/-- Screening record (`NormalizedScreening`). -/
structure NormalizedScreening where
  screening_type : String
  completed : Bool
  result_negative : Option Bool
deriving DecidableEq, Repr

/-- Evaluator input (`NormalizedPatientData`).  The cross-therapeutic
extension fields (biomarkers, functional scores, staging, imaging, genetic
tests, program enrollments, site of care) are omitted: none of the embedded
evaluator functions reads them. -/
structure NormalizedPatientData where
  patient_id : Option String
  age_years : Option Int
  gender : Option String
  diagnosis_codes : List String
  disease_severity : Option String
  prior_treatments : List NormalizedTreatment
  lab_results : List NormalizedLabResult
  completed_screenings : List NormalizedScreening
  prescriber_specialty : Option String
  prescriber_npi : Option String
deriving DecidableEq, Repr

/-- A patient record with every optional field unset and every list empty. -/
def empty_patient : NormalizedPatientData :=
  { patient_id := none
    age_years := none
    gender := none
    diagnosis_codes := []
    disease_severity := none
    prior_treatments := []
    lab_results := []
    completed_screenings := []
    prescriber_specialty := none
    prescriber_npi := none }

/-- Python truthiness of an optional string (`None` and `""` are falsy). -/
def opt_str_truthy : Option String → Bool
  | none => false
  | some s => s ≠ ""

/-- Python substring test `needle in hay` on char lists. -/
def char_list_in (needle : List Char) : List Char → Bool
  | [] => needle.isEmpty
  | c :: rest => List.isPrefixOf needle (c :: rest) || char_list_in needle rest

/-- Python substring test `needle in hay` for strings. -/
def str_in (needle hay : String) : Bool :=
  char_list_in needle.toList hay.toList

/-- Python `s.lower()` (character-level implementation of `String.toLower`,
kernel-reducible). -/
def py_lower (s : String) : String :=
  String.mk (s.data.map Char.toLower)

/-- Python `s.upper()` (character-level implementation of `String.toUpper`). -/
def py_upper (s : String) : String :=
  String.mk (s.data.map Char.toUpper)

/-- Python `s.replace(old, new)` for a single-character pattern, the only
shape the evaluator uses (".", "-" and " "). -/
def py_replace_char (s : String) (old : Char) (sub : String) : String :=
  String.mk (s.data.flatMap (fun c => if c = old then sub.data else [c]))

/-- Python `s.startswith(pre)`. -/
def py_startswith (s pre : String) : Bool :=
  pre.data.isPrefixOf s.data

/-- Split a character list at the characters satisfying `p` (the separators
are dropped; empty runs are kept, to be filtered by the caller). -/
def split_list (p : Char → Bool) : List Char → List (List Char)
  | [] => [[]]
  | c :: rest =>
    let r := split_list p rest
    if p c then [] :: r
    else
      match r with
      | [] => [[c]]
      | h :: t => (c :: h) :: t

/-- Python `s.split()`: split on whitespace runs, dropping empty pieces. -/
def py_split (s : String) : List String :=
  ((split_list Char.isWhitespace s.data).map String.mk).filter (fun t => ¬ t.isEmpty)

/-- Python `s.isalpha()` (ASCII letters; empty string is not alpha). -/
def py_isalpha (s : String) : Bool :=
  ¬ s.isEmpty && s.toList.all Char.isAlpha

/-- Python `int()` truncation toward zero for rationals. -/
def py_trunc (q : ℚ) : Int :=
  if 0 ≤ q.num then q.floor else q.ceil

/-- Round `t / d` (for `d > 0`) to the nearest integer, ties to even
(Python `round` tie-breaking), on plain integers. -/
def round_div_half_even (t d : Int) : Int :=
  let f : Int := t.ediv d
  let r2 : Int := 2 * (t - f * d)
  if r2 < d then f
  else if d < r2 then f + 1
  else if f % 2 = 0 then f else f + 1

/-- Python `round(x)` to an integer, on a rational. -/
def round0 (q : ℚ) : Int :=
  round_div_half_even q.num (q.den : Int)

/-- Python `round(x, 3)` modelled on rationals: round `1000 * x` half to
even and divide back by 1000 (stated on the numerator and denominator so
that the definition evaluates inside the kernel). -/
def round3 (q : ℚ) : ℚ :=
  mkRat (round_div_half_even (1000 * q.num) (q.den : Int)) 1000

/-- Render a string list the way Python prints `[itm1, itm2]` with quotes
(the quote character is written as an escape). -/
def show_str_list (l : List String) : String :=
  "[" ++ String.intercalate ", " (l.map (fun s => "\x27" ++ s ++ "\x27")) ++ "]"

/-- Python `_safe_float`: numbers survive, everything else becomes None. -/
def safe_float : PyScalar → Option ℚ
  | .num q => some q
  | .nonNumeric _ => none

/-- Optional variant: `_safe_float` applied to an optional scalar. -/
def safe_float_opt : Option PyScalar → Option ℚ
  | none => none
  | some v => safe_float v

/-- Python `_compare_numeric`: compare `value` against `threshold` using the
operator; `eq`/`neq` use the 1e-9 tolerance; `between`/`in`/`not_in` consult
the optional upper bound. -/
def compare_numeric (value threshold : ℚ) (op : Option ComparisonOperator)
    (upper_bound : Option PyScalar) : Bool :=
  match op with
  | none => threshold ≤ value
  | some .gte => threshold ≤ value
  | some .gt => threshold < value
  | some .lt => value < threshold
  | some .lte => value ≤ threshold
  | some .eq => |value - threshold| < 1/1000000000
  | some .neq => 1/1000000000 ≤ |value - threshold|
  | some .between =>
      match upper_bound with
      | none => threshold ≤ value
      | some ub =>
          match safe_float ub with
          | none => threshold ≤ value
          | some upper => threshold ≤ value ∧ value ≤ upper
  | some .in_op =>
      let targets := [threshold] ++ (match upper_bound with
        | none => []
        | some ub => match safe_float ub with
          | none => []
          | some parsed => [parsed])
      targets.contains value
  | some .not_in =>
      let targets := [threshold] ++ (match upper_bound with
        | none => []
        | some ub => match safe_float ub with
          | none => []
          | some parsed => [parsed])
      ¬ targets.contains value

/-- Per-criterion evaluation record (`CriterionEvaluation`). -/
structure CriterionEvaluation where
  criterion_id : String
  criterion_name : String
  verdict : CriterionVerdict
  confidence : ℚ
  evidence : List String
  reasoning : String
  is_required : Bool
deriving DecidableEq, Repr

/-- Build a `CriterionEvaluation` for a criterion with the default confidence. -/
def mk_eval (c : AtomicCriterion) (v : CriterionVerdict) (ev : List String)
    (r : String) : CriterionEvaluation :=
  { criterion_id := c.criterion_id
    criterion_name := c.name
    verdict := v
    confidence := 1
    evidence := ev
    reasoning := r
    is_required := c.is_required }

/-- Display of an optional comparison operator in reasoning strings
(`criterion.comparison_operator or 'gte'`). -/
def op_display : Option ComparisonOperator → String
  | none => "gte"
  | some .gte => "gte"
  | some .gt => "gt"
  | some .lt => "lt"
  | some .lte => "lte"
  | some .eq => "eq"
  | some .neq => "neq"
  | some .between => "between"
  | some .in_op => "in"
  | some .not_in => "not_in"

/-- Display of an optional string the way Python formats it (None prints as "None"). -/
def opt_display : Option String → String
  | none => "None"
  | some s => s

/-- Python `evaluate_age`. -/
def evaluate_age (c : AtomicCriterion) (patient : NormalizedPatientData) : CriterionEvaluation :=
  match patient.age_years with
  | none => mk_eval c .insufficient_data [] "Patient age not available"
  | some age =>
    match c.threshold_value with
    | none => mk_eval c .insufficient_data [] "No threshold defined in criterion"
    | some raw_threshold =>
      match safe_float raw_threshold with
      | none => mk_eval c .insufficient_data []
          ("Non-numeric threshold value: " ++ raw_threshold.toStr)
      | some threshold =>
        let met := compare_numeric (age : ℚ) threshold c.comparison_operator c.threshold_value_upper
        mk_eval c (if met then .met else .not_met)
          ["Patient age: " ++ toString age ++ " years"]
          ("Age " ++ toString age ++ (if met then " meets " else " does not meet ")
            ++ op_display c.comparison_operator ++ " " ++ toString threshold)

/-- Python `evaluate_gender`. -/
def evaluate_gender (c : AtomicCriterion) (patient : NormalizedPatientData) : CriterionEvaluation :=
  if ¬ opt_str_truthy patient.gender then
    mk_eval c .insufficient_data [] "Patient gender not available"
  else
    let g := patient.gender.getD ""
    let allowed0 := c.allowed_values.map py_lower
    let allowed :=
      if allowed0.isEmpty && (match c.threshold_value with
          | some t => t.truthy
          | none => false) then
        [py_lower (c.threshold_value.getD (.nonNumeric "")).toStr]
      else allowed0
    let met := if allowed.isEmpty then true else allowed.contains (py_lower g)
    mk_eval c (if met then .met else .not_met)
      ["Patient gender: " ++ g]
      ("Gender \x27" ++ g ++ "\x27" ++ (if met then " is " else " is not ")
        ++ "in allowed values " ++ show_str_list allowed)

/-- Python `evaluate_diagnosis_confirmed`. -/
def evaluate_diagnosis_confirmed (c : AtomicCriterion) (patient : NormalizedPatientData) : CriterionEvaluation :=
  if patient.diagnosis_codes.isEmpty then
    mk_eval c .insufficient_data [] "No diagnosis codes available"
  else
    let criterion_codes := c.clinical_codes.map (fun cc => py_replace_char (py_upper cc.code) '.' "")
    let hits := patient.diagnosis_codes.filter (fun pc =>
      let pcn := py_replace_char (py_upper pc) '.' ""
      criterion_codes.any (fun cc => pcn = cc || py_startswith pcn cc || py_startswith cc pcn))
    let matched := if criterion_codes.isEmpty then ¬ patient.diagnosis_codes.isEmpty else ¬ hits.isEmpty
    let evidence :=
      if criterion_codes.isEmpty then
        ["Patient has diagnosis codes: " ++ show_str_list patient.diagnosis_codes]
      else hits.map (fun pc => "Diagnosis " ++ pc ++ " matches criterion code")
    mk_eval c (if matched then .met else .not_met) evidence
      ("Diagnosis " ++ (if matched then "confirmed" else "not confirmed") ++ " against criterion codes")

/-- Python `evaluate_diagnosis_severity`. -/
def evaluate_diagnosis_severity (c : AtomicCriterion) (patient : NormalizedPatientData) : CriterionEvaluation :=
  if ¬ opt_str_truthy patient.disease_severity then
    mk_eval c .insufficient_data [] "Disease severity not documented"
  else
    let sev := patient.disease_severity.getD ""
    let allowed := c.allowed_values.map py_lower
    let severity_lower := py_replace_char (py_replace_char (py_lower sev) '-' "_") ' ' "_"
    let met :=
      if ¬ allowed.isEmpty then
        (allowed.map (fun a => py_replace_char (py_replace_char a '-' "_") ' ' "_")).contains severity_lower
      else
        let desc_lower := py_lower c.description
        (str_in "moderate" desc_lower && str_in "moderate" severity_lower)
          || (str_in "severe" desc_lower && str_in "severe" severity_lower)
    mk_eval c (if met then .met else .not_met)
      ["Disease severity: " ++ sev]
      ("Severity \x27" ++ sev ++ "\x27" ++ (if met then " matches " else " does not match ") ++ "criterion")

/-- Python `_get_matched_treatment`: first treatment matching the criterion
by drug name, drug class, or substring heuristics.  The original scans the
checks in order per treatment and returns the treatment at the first hit,
which equals finding the first treatment satisfying the disjunction. -/
def get_matched_treatment (c : AtomicCriterion) (patient : NormalizedPatientData) : Option NormalizedTreatment :=
  let drug_names_lower := c.drug_names.map py_lower
  let drug_classes_lower := c.drug_classes.map py_lower
  let desc_lower := py_lower c.description
  let name_lower := py_lower c.name
  patient.prior_treatments.find? (fun tx =>
    let tx_name_lower := py_lower tx.medication_name
    let tx_class_lower := py_lower (tx.drug_class.getD "")
    drug_names_lower.contains tx_name_lower
      || drug_names_lower.any (fun dn => str_in dn tx_name_lower || str_in tx_name_lower dn)
      || (tx_class_lower ≠ "" && drug_classes_lower.contains tx_class_lower)
      || (tx_name_lower.length ≥ 4
          && (str_in tx_name_lower desc_lower || str_in tx_name_lower name_lower))
      || (tx_class_lower ≠ "" && (py_split tx_class_lower).any (fun kw =>
            kw.length ≥ 4 && str_in kw desc_lower)))

/-- Python `_find_treatment_match`. -/
def find_treatment_match (c : AtomicCriterion) (patient : NormalizedPatientData) : Bool :=
  (get_matched_treatment c patient).isSome

/-- Python `evaluate_prior_treatment_tried`. -/
def evaluate_prior_treatment_tried (c : AtomicCriterion) (patient : NormalizedPatientData) : CriterionEvaluation :=
  if patient.prior_treatments.isEmpty then
    mk_eval c .insufficient_data [] "No prior treatment history available"
  else
    let matched := find_treatment_match c patient
    mk_eval c (if matched then .met else .not_met)
      ["Prior treatments: " ++ show_str_list (patient.prior_treatments.map (·.medication_name))]
      ("Prior treatment " ++ (if matched then "found" else "not found") ++ " matching criterion")

/-- Outcomes `evaluate_prior_treatment_failed` counts as failures. -/
def failed_outcomes : List String :=
  ["failed", "inadequate_response", "partial_response", "steroid_dependent"]

/-- Python `evaluate_prior_treatment_failed`. -/
def evaluate_prior_treatment_failed (c : AtomicCriterion) (patient : NormalizedPatientData) : CriterionEvaluation :=
  if patient.prior_treatments.isEmpty then
    mk_eval c .insufficient_data [] "No prior treatment history available"
  else
    match get_matched_treatment c patient with
    | none => mk_eval c .not_met [] "No matching treatment found in history"
    | some tx =>
      if (match tx.outcome with | some o => failed_outcomes.contains o | none => false) then
        mk_eval c .met
          [tx.medication_name ++ ": outcome=" ++ opt_display tx.outcome]
          ("Treatment " ++ tx.medication_name ++ " failed with outcome: " ++ opt_display tx.outcome)
      else
        mk_eval c .not_met
          ["Treatment found but outcome not a failure: " ++ opt_display tx.outcome]
          "Treatment was tried but failure not documented"

/-- Python `evaluate_prior_treatment_intolerant`. -/
def evaluate_prior_treatment_intolerant (c : AtomicCriterion) (patient : NormalizedPatientData) : CriterionEvaluation :=
  if patient.prior_treatments.isEmpty then
    mk_eval c .insufficient_data [] "No prior treatment history available"
  else
    match get_matched_treatment c patient with
    | some tx =>
      if tx.outcome = some "intolerant" then
        mk_eval c .met [tx.medication_name ++ ": intolerant"]
          ("Patient was intolerant to " ++ tx.medication_name)
      else
        mk_eval c .not_met [] "Intolerance not documented for matched treatment"
    | none => mk_eval c .not_met [] "Intolerance not documented for matched treatment"

/-- Python `evaluate_prior_treatment_contraindicated`. -/
def evaluate_prior_treatment_contraindicated (c : AtomicCriterion) (patient : NormalizedPatientData) : CriterionEvaluation :=
  if patient.prior_treatments.isEmpty then
    mk_eval c .insufficient_data [] "No prior treatment history available"
  else
    match get_matched_treatment c patient with
    | some tx =>
      if tx.outcome = some "contraindicated" then
        mk_eval c .met [tx.medication_name ++ ": contraindicated"]
          ("Contraindication documented for " ++ tx.medication_name)
      else
        mk_eval c .not_met [] "Contraindication not documented for matched treatment"
    | none => mk_eval c .not_met [] "Contraindication not documented for matched treatment"

/-- Python `evaluate_prior_treatment_duration`. -/
def evaluate_prior_treatment_duration (c : AtomicCriterion) (patient : NormalizedPatientData) : CriterionEvaluation :=
  if patient.prior_treatments.isEmpty then
    mk_eval c .insufficient_data [] "No prior treatment history available"
  else
    match get_matched_treatment c patient with
    | none => mk_eval c .not_met [] "No matching treatment found"
    | some tx =>
      match tx.duration_weeks with
      | none => mk_eval c .insufficient_data []
          ("Duration not documented for " ++ tx.medication_name)
      | some weeks =>
        let threshold_days : Option Int :=
          match c.threshold_value with
          | some tv =>
            if tv.truthy then
              match safe_float tv with
              | some parsed => some (py_trunc parsed)
              | none => none
            else none
          | none => none
        let min_days : Option Int :=
          match c.minimum_duration_days with
          | some d => if d ≠ 0 then some d else threshold_days
          | none => threshold_days
        match min_days with
        | none => mk_eval c .met
            [tx.medication_name ++ ": " ++ toString weeks ++ " weeks"]
            "No minimum duration specified; treatment documented"
        | some md =>
          let min_weeks : ℚ := mkRat md 7
          let met := min_weeks ≤ (weeks : ℚ)
          mk_eval c (if met then .met else .not_met)
            [tx.medication_name ++ ": " ++ toString weeks ++ " weeks (required: "
              ++ toString (round0 min_weeks) ++ " weeks)"]
            ("Duration " ++ toString weeks ++ "w "
              ++ (if met then "meets" else "does not meet") ++ " minimum "
              ++ toString (round0 min_weeks) ++ "w")

/-- Noise words skipped by the lab keyword matcher. -/
def noise_words : List String :=
  ["test", "level", "value", "result", "lab", "blood", "serum", "plasma", "the", "and", "for", "with"]

/-- Python `_find_lab_result`: LOINC match first, then the name heuristics.
Each heuristic returns the lab currently scanned, so the scan equals finding
the first lab satisfying the disjunction of the checks. -/
def find_lab_result (c : AtomicCriterion) (patient : NormalizedPatientData) : Option NormalizedLabResult :=
  let criterion_loinc := (c.clinical_codes.filter (fun cc => cc.system = "LOINC")).map (·.code)
  match patient.lab_results.find? (fun lab =>
      opt_str_truthy lab.loinc_code && criterion_loinc.contains (lab.loinc_code.getD "")) with
  | some lab => some lab
  | none =>
    let name_lower := py_lower c.name
    let desc_lower := py_lower c.description
    patient.lab_results.find? (fun lab =>
      let lab_name_lower := py_lower lab.test_name
      let criterion_keywords := (py_split name_lower).filter (fun kw =>
        kw.length ≥ 4 && ¬ noise_words.contains kw)
      lab_name_lower = name_lower
        || (lab_name_lower.length ≥ 4
            && (str_in lab_name_lower name_lower || str_in lab_name_lower desc_lower))
        || (name_lower.length ≥ 4 && str_in name_lower lab_name_lower)
        || (lab_name_lower.length < 4 && py_isalpha lab_name_lower
            && ((py_split name_lower).contains lab_name_lower
                || (py_split desc_lower).contains lab_name_lower))
        || (¬ criterion_keywords.isEmpty
            && criterion_keywords.any (fun kw => (py_split lab_name_lower).contains kw)))

/-- Python `evaluate_lab_value`. -/
def evaluate_lab_value (c : AtomicCriterion) (patient : NormalizedPatientData) : CriterionEvaluation :=
  if patient.lab_results.isEmpty then
    mk_eval c .insufficient_data [] "No lab results available"
  else
    match find_lab_result c patient with
    | none => mk_eval c .insufficient_data []
        ("Lab result \x27" ++ c.name ++ "\x27 not found in patient data")
    | some lab =>
      match lab.value with
      | none => mk_eval c .insufficient_data []
          ("Lab result \x27" ++ c.name ++ "\x27 not found in patient data")
      | some v =>
        match c.threshold_value with
        | none => mk_eval c .met
            [lab.test_name ++ ": " ++ toString v ++ " " ++ lab.unit.getD ""]
            "Lab present; no threshold to compare"
        | some raw =>
          match safe_float raw with
          | none => mk_eval c .insufficient_data []
              ("Non-numeric threshold value: " ++ raw.toStr)
          | some threshold =>
            let met := compare_numeric v threshold c.comparison_operator c.threshold_value_upper
            mk_eval c (if met then .met else .not_met)
              [lab.test_name ++ ": " ++ toString v ++ " " ++ lab.unit.getD ""]
              ("Lab " ++ lab.test_name ++ " = " ++ toString v
                ++ (if met then " meets " else " does not meet ") ++ "threshold "
                ++ op_display c.comparison_operator ++ " " ++ toString threshold)

/-- Python `evaluate_lab_test_completed`. -/
def evaluate_lab_test_completed (c : AtomicCriterion) (patient : NormalizedPatientData) : CriterionEvaluation :=
  if patient.lab_results.isEmpty then
    mk_eval c .insufficient_data [] "No lab results available"
  else
    match find_lab_result c patient with
    | some lab =>
      mk_eval c .met ["Lab " ++ lab.test_name ++ " found"] "Lab test completed"
    | none =>
      mk_eval c .insufficient_data ["Lab \x27" ++ c.name ++ "\x27 not found"] "Lab test not found"

/-- Python `_find_screening`. -/
def find_screening (c : AtomicCriterion) (patient : NormalizedPatientData) : Option NormalizedScreening :=
  let combined := py_lower c.name ++ " " ++ py_lower c.description
  patient.completed_screenings.find? (fun s =>
    let st := py_lower s.screening_type
    str_in st combined
      || (str_in "tb" combined && st = "tb")
      || (str_in "tuberculosis" combined && st = "tb")
      || (str_in "hepatitis b" combined && st = "hepatitis_b")
      || (str_in "hepatitis c" combined && st = "hepatitis_c")
      || (str_in "hep b" combined && st = "hepatitis_b")
      || (str_in "hep c" combined && st = "hepatitis_c"))

/-- Python `evaluate_safety_screening_completed`. -/
def evaluate_safety_screening_completed (c : AtomicCriterion) (patient : NormalizedPatientData) : CriterionEvaluation :=
  if patient.completed_screenings.isEmpty then
    mk_eval c .insufficient_data [] "No screening data available"
  else
    match find_screening c patient with
    | some s =>
      if s.completed then
        mk_eval c .met ["Screening \x27" ++ s.screening_type ++ "\x27 completed"]
          ("Safety screening " ++ s.screening_type ++ " completed")
      else
        mk_eval c .not_met [] "Screening not completed"
    | none => mk_eval c .insufficient_data [] "Screening not found"

/-- Python `evaluate_safety_screening_negative`. -/
def evaluate_safety_screening_negative (c : AtomicCriterion) (patient : NormalizedPatientData) : CriterionEvaluation :=
  if patient.completed_screenings.isEmpty then
    mk_eval c .insufficient_data [] "No screening data available"
  else
    match find_screening c patient with
    | some s =>
      if s.completed && s.result_negative = some true then
        mk_eval c .met
          ["Screening \x27" ++ s.screening_type ++ "\x27 completed and negative"]
          ("Safety screening " ++ s.screening_type ++ " negative")
      else if s.completed && s.result_negative = some false then
        mk_eval c .not_met
          ["Screening \x27" ++ s.screening_type ++ "\x27 positive/not negative"]
          ("Safety screening " ++ s.screening_type ++ " not negative")
      else
        mk_eval c .insufficient_data [] "Screening result not available"
    | none => mk_eval c .insufficient_data [] "Screening result not available"

/-- Specialty keyword stems scanned by the prescriber evaluator. -/
def specialty_stems : List String :=
  ["gastroenterolog", "rheumatolog", "dermatolog", "neurolog", "oncolog"]

/-- Python `evaluate_prescriber_specialty`. -/
def evaluate_prescriber_specialty (c : AtomicCriterion) (patient : NormalizedPatientData) : CriterionEvaluation :=
  if ¬ opt_str_truthy patient.prescriber_specialty then
    mk_eval c .insufficient_data [] "Prescriber specialty not available"
  else
    let spec := patient.prescriber_specialty.getD ""
    let allowed := c.allowed_values.map py_lower
    let desc_lower := py_lower c.description
    let specialty_lower := py_lower spec
    let met :=
      if ¬ allowed.isEmpty then allowed.contains specialty_lower
      else
        specialty_stems.any (fun kw => str_in kw desc_lower && str_in kw specialty_lower)
          || specialty_stems.any (fun kw =>
              str_in kw (py_lower c.name) && str_in kw specialty_lower)
    mk_eval c (if met then .met else .not_met)
      ["Prescriber specialty: " ++ spec]
      ("Specialty \x27" ++ spec ++ "\x27"
        ++ (if met then " matches " else " does not match ") ++ "requirement")

/-- Python `evaluate_prescriber_consultation` (delegates to the specialty evaluator). -/
def evaluate_prescriber_consultation (c : AtomicCriterion) (patient : NormalizedPatientData) : CriterionEvaluation :=
  evaluate_prescriber_specialty c patient

/-- Python `evaluate_documentation` (documentation_present, clinical_marker_present). -/
def evaluate_documentation (c : AtomicCriterion) (_patient : NormalizedPatientData) : CriterionEvaluation :=
  mk_eval c .insufficient_data [] "Documentation presence requires manual verification"

/-- Python `evaluate_disease_duration`. -/
def evaluate_disease_duration (c : AtomicCriterion) (_patient : NormalizedPatientData) : CriterionEvaluation :=
  mk_eval c .insufficient_data [] "Disease duration requires clinical notes review"

/-- Python `evaluate_concurrent_therapy` (concurrent_therapy, no_concurrent_therapy). -/
def evaluate_concurrent_therapy (c : AtomicCriterion) (_patient : NormalizedPatientData) : CriterionEvaluation :=
  mk_eval c .insufficient_data [] "Concurrent therapy status requires clinical review"

/-- Python `evaluate_custom`. -/
def evaluate_custom (c : AtomicCriterion) (_patient : NormalizedPatientData) : CriterionEvaluation :=
  mk_eval c .insufficient_data [] "Custom criterion requires manual evaluation"

/-- The evaluator registry built by the `register_evaluator` decorators.
Every criterion type is registered, so the lookup never misses; the
`Option` mirrors `EVALUATOR_REGISTRY.get`. -/
def EVALUATOR_REGISTRY : CriterionType → Option (AtomicCriterion → NormalizedPatientData → CriterionEvaluation)
  | .age => some evaluate_age
  | .gender => some evaluate_gender
  | .diagnosis_confirmed => some evaluate_diagnosis_confirmed
  | .diagnosis_severity => some evaluate_diagnosis_severity
  | .prior_treatment_tried => some evaluate_prior_treatment_tried
  | .prior_treatment_failed => some evaluate_prior_treatment_failed
  | .prior_treatment_intolerant => some evaluate_prior_treatment_intolerant
  | .prior_treatment_contraindicated => some evaluate_prior_treatment_contraindicated
  | .prior_treatment_duration => some evaluate_prior_treatment_duration
  | .lab_value => some evaluate_lab_value
  | .lab_test_completed => some evaluate_lab_test_completed
  | .safety_screening_completed => some evaluate_safety_screening_completed
  | .safety_screening_negative => some evaluate_safety_screening_negative
  | .prescriber_specialty => some evaluate_prescriber_specialty
  | .prescriber_consultation => some evaluate_prescriber_consultation
  | .documentation_present => some evaluate_documentation
  | .clinical_marker_present => some evaluate_documentation
  | .disease_duration => some evaluate_disease_duration
  | .concurrent_therapy => some evaluate_concurrent_therapy
  | .no_concurrent_therapy => some evaluate_concurrent_therapy
  | .custom => some evaluate_custom

/-- Python `evaluate_criterion`: registry dispatch.  The `try/except` around
the evaluator call has no counterpart here because every embedded evaluator
is a total function. -/
def evaluate_criterion (c : AtomicCriterion) (patient : NormalizedPatientData) : CriterionEvaluation :=
  match EVALUATOR_REGISTRY c.criterion_type with
  | none => mk_eval c .insufficient_data [] "No evaluator registered for this type"
  | some f => f c patient

/-- Group evaluation record (`GroupEvaluation`); an inductive because the
record nests under `subgroup_results`. -/
inductive GroupEvaluation where
  | mk (group_id : String) (operator : String) (verdict : CriterionVerdict)
       (reasoning : String) (criteria_results : List CriterionEvaluation)
       (subgroup_results : List GroupEvaluation)

/-- Projection: group id. -/
def GroupEvaluation.group_id : GroupEvaluation → String
  | .mk g _ _ _ _ _ => g

/-- Projection: operator string. -/
def GroupEvaluation.operator : GroupEvaluation → String
  | .mk _ o _ _ _ _ => o

/-- Projection: verdict. -/
def GroupEvaluation.verdict : GroupEvaluation → CriterionVerdict
  | .mk _ _ v _ _ _ => v

/-- Projection: reasoning. -/
def GroupEvaluation.reasoning : GroupEvaluation → String
  | .mk _ _ _ r _ _ => r

/-- Projection: per-criterion results. -/
def GroupEvaluation.criteria_results : GroupEvaluation → List CriterionEvaluation
  | .mk _ _ _ _ cs _ => cs

/-- Projection: sub-group results. -/
def GroupEvaluation.subgroup_results : GroupEvaluation → List GroupEvaluation
  | .mk _ _ _ _ _ sgs => sgs

/-- Python `_combine_verdicts`: combine child verdicts under a logical
operator.  NOT_APPLICABLE entries are filtered out for the emptiness test
and for AND/OR; the NOT branch reads `verdicts[0]` of the unfiltered list.
The unknown-operator fallback is unreachable with the three-valued enum. -/
def combine_verdicts (verdicts : List CriterionVerdict) (operator : LogicalOperator)
    (negated : Bool) : CriterionVerdict :=
  if verdicts.isEmpty then .not_applicable
  else
    let effective := verdicts.filter (fun v => v ≠ .not_applicable)
    if effective.isEmpty then .not_applicable
    else
      let result :=
        match operator with
        | .AND =>
          if effective.all (fun v => v = .met) then .met
          else if effective.any (fun v => v = .not_met) then .not_met
          else .insufficient_data
        | .OR =>
          if effective.any (fun v => v = .met) then .met
          else if effective.all (fun v => v = .not_met) then .not_met
          else .insufficient_data
        | .NOT =>
          match verdicts.headD .not_applicable with
          | .met => .not_met
          | .not_met => .met
          | child => child
      if negated then
        match result with
        | .met => .not_met
        | .not_met => .met
        | r => r
      else result

/-- Option-valued `mapM` (explicit recursion, used by the fuel-indexed
group evaluator). -/
def option_mapM {α β : Type} (f : α → Option β) : List α → Option (List β)
  | [] => some []
  | a :: l =>
    match f a with
    | none => none
    | some b =>
      match option_mapM f l with
      | none => none
      | some bs => some (b :: bs)

/-- The `GroupEvaluation` returned by `evaluate_group` when the group id is
already on the current path (cycle detection). -/
def cycle_evaluation (g : CriterionGroup) : GroupEvaluation :=
  .mk g.group_id g.operator.value .insufficient_data
    "Circular group reference detected" [] []

/-- Fuel-indexed embedding of Python `evaluate_group`.  The Python function
recurses through a mutable path-local visited set that each call restores
before returning, so every sibling recursion starts from the same visited
set; here the set is the explicit `visited` list.  `none` means the fuel ran
out; `group_eval_fuel_isSome` shows the fuel bound used by `evaluate_group`
always suffices, which is the embedding's form of termination. -/
def eval_group_fuel (pol : DigitizedPolicy) (patient : NormalizedPatientData) :
    Nat → CriterionGroup → List String → Option GroupEvaluation
  | 0, _, _ => none
  | fuel + 1, g, visited =>
    if g.group_id ∈ visited then some (cycle_evaluation g)
    else
      let visited' := g.group_id :: visited
      let criteria_results :=
        (g.criteria.filterMap pol.get_criterion).map (fun c => evaluate_criterion c patient)
      match option_mapM (fun sg => eval_group_fuel pol patient fuel sg visited')
          (g.subgroups.filterMap pol.get_group) with
      | none => none
      | some subgroup_results =>
        let all_verdicts :=
          criteria_results.map (·.verdict) ++ subgroup_results.map GroupEvaluation.verdict
        some (.mk g.group_id g.operator.value
          (combine_verdicts all_verdicts g.operator g.negated)
          "" criteria_results subgroup_results)

/-- The group ids that can ever enter the visited set through recursion:
the `group_id` fields of the policy's stored groups. -/
def group_field_ids (pol : DigitizedPolicy) : List String :=
  pol.criterion_groups.map (fun p => p.2.group_id)

/-- Fuel sufficient for any traversal of the policy's group graph. -/
def group_fuel (pol : DigitizedPolicy) : Nat :=
  (group_field_ids pol).toFinset.card + 2

/-- Python `evaluate_group` on an empty path.  The default is never used
(see `group_eval_fuel_isSome`). -/
def evaluate_group (pol : DigitizedPolicy) (patient : NormalizedPatientData)
    (g : CriterionGroup) : GroupEvaluation :=
  (eval_group_fuel pol patient (group_fuel pol) g []).getD (cycle_evaluation g)

mutual

/-- Python `_collect_all_criteria_evals` restricted to one group tree. -/
def collect_group_criteria : GroupEvaluation → List CriterionEvaluation
  | .mk _ _ _ _ crs sgs => crs ++ collect_groups_criteria sgs

/-- Python `_collect_all_criteria_evals` over a list of subtrees. -/
def collect_groups_criteria : List GroupEvaluation → List CriterionEvaluation
  | [] => []
  | g :: rest => collect_group_criteria g ++ collect_groups_criteria rest

end

/-- Python `_collect_all_criteria_evals` (optional root). -/
def collect_all_criteria_evals : Option GroupEvaluation → List CriterionEvaluation
  | none => []
  | some g => collect_group_criteria g

/-- Indication evaluation record (`IndicationEvaluation`). -/
structure IndicationEvaluation where
  indication_id : String
  indication_name : String
  overall_verdict : CriterionVerdict
  approval_criteria_result : Option GroupEvaluation
  criteria_met_count : Nat
  criteria_total_count : Nat
  unmet_criteria : List CriterionEvaluation
  insufficient_criteria : List CriterionEvaluation

/-- Detail entry appended by `evaluate_step_therapy` for each counted failure. -/
inductive StepDrugDetail where
  | failure (drug : String) (outcome : Option String) (duration_weeks : Option Int)
      (adequate_trial : Bool)
  | acceptable (drug : String) (outcome : Option String)
deriving DecidableEq, Repr

/-- Per-requirement result dict built by `evaluate_step_therapy`. -/
structure StepRequirementResult where
  requirement_id : String
  indication : String
  minimum_trials : Nat
  drugs_tried : Nat
  drugs_failed : Nat
  satisfied : Bool
  details : List StepDrugDetail
deriving DecidableEq, Repr

/-- Top-level dict returned by `evaluate_step_therapy`. -/
structure StepTherapyResult where
  required : Bool
  satisfied : Bool
  details : List StepRequirementResult
deriving DecidableEq, Repr

/-- Treatment match used by the step-therapy loop: the item name appears as
a substring of the treatment name or drug class (lower-cased). -/
def st_tx_matches (item_lower : String) (tx : NormalizedTreatment) : Bool :=
  str_in item_lower (py_lower tx.medication_name)
    || str_in item_lower (py_lower (tx.drug_class.getD ""))

/-- Outcome classification of the step-therapy loop: plain failure outcomes,
or intolerance/contraindication when the requirement accepts them. -/
def st_outcome_detail (req : StepTherapyRequirement) (tx : NormalizedTreatment) :
    Option StepDrugDetail :=
  if (match tx.outcome with | some o => failed_outcomes.contains o | none => false) then
    some (.failure tx.medication_name tx.outcome tx.duration_weeks tx.adequate_trial)
  else if tx.outcome = some "intolerant" && req.intolerance_acceptable then
    some (.acceptable tx.medication_name tx.outcome)
  else if tx.outcome = some "contraindicated" && req.contraindication_acceptable then
    some (.acceptable tx.medication_name tx.outcome)
  else none

/-- The inner loop of `evaluate_step_therapy` over `required_items`,
threading the `drugs_tried`, `drugs_failed` and `drug_details` accumulators.
The Python treatment scan with its `item_matched` flag and `break` is the
first treatment matching the item. -/
def st_items_loop (req : StepTherapyRequirement) (patient : NormalizedPatientData) :
    List String → Nat → Nat → List StepDrugDetail → Nat × Nat × List StepDrugDetail
  | [], tried, failed, details => (tried, failed, details)
  | item :: rest, tried, failed, details =>
    match patient.prior_treatments.find? (st_tx_matches (py_lower item)) with
    | none => st_items_loop req patient rest tried failed details
    | some tx =>
      match st_outcome_detail req tx with
      | some d => st_items_loop req patient rest (tried + 1) (failed + 1) (details ++ [d])
      | none => st_items_loop req patient rest (tried + 1) failed details

/-- One requirement entry of `evaluate_step_therapy`. -/
def st_requirement_result (patient : NormalizedPatientData)
    (req : StepTherapyRequirement) : StepRequirementResult :=
  let required_items := req.required_drugs ++ req.required_drug_classes
  let acc := st_items_loop req patient required_items 0 0 []
  { requirement_id := req.requirement_id
    indication := req.indication
    minimum_trials := req.minimum_trials
    drugs_tried := acc.1
    drugs_failed := acc.2.1
    satisfied := req.minimum_trials ≤ acc.2.1
    details := acc.2.2 }

/-- Python `evaluate_step_therapy`. -/
def evaluate_step_therapy (pol : DigitizedPolicy) (patient : NormalizedPatientData) :
    StepTherapyResult :=
  if pol.step_therapy_requirements.isEmpty then
    { required := false, satisfied := true, details := [] }
  else
    let results := pol.step_therapy_requirements.map (st_requirement_result patient)
    { required := true
      satisfied := results.all (·.satisfied)
      details := results }

/-- Gap entry of `PolicyEvaluationResult.gaps`. -/
structure Gap where
  criterion_id : String
  criterion_name : String
  indication : String
  gap_type : String
  action : String
deriving DecidableEq, Repr

/-- Top-level result record (`PolicyEvaluationResult`). -/
structure PolicyEvaluationResult where
  policy_id : String
  patient_id : String
  indication_evaluations : List IndicationEvaluation
  exclusion_evaluations : List CriterionEvaluation
  step_therapy_evaluation : StepTherapyResult
  overall_readiness : ℚ
  overall_verdict : CriterionVerdict
  gaps : List Gap

/-- The per-indication block of `evaluate_policy`: resolve the root group,
evaluate it, and derive the counts and the unmet/insufficient lists. -/
def eval_indication (pol : DigitizedPolicy) (patient : NormalizedPatientData)
    (ind : IndicationCriteria) : IndicationEvaluation :=
  match pol.get_group ind.initial_approval_criteria with
  | none =>
    { indication_id := ind.indication_id
      indication_name := ind.indication_name
      overall_verdict := .insufficient_data
      approval_criteria_result := none
      criteria_met_count := 0
      criteria_total_count := 0
      unmet_criteria := []
      insufficient_criteria := [] }
  | some root_group =>
    let group_result := evaluate_group pol patient root_group
    let all_criteria := collect_group_criteria group_result
    { indication_id := ind.indication_id
      indication_name := ind.indication_name
      overall_verdict := group_result.verdict
      approval_criteria_result := some group_result
      criteria_met_count := (all_criteria.filter (fun c => c.verdict = .met)).length
      criteria_total_count := all_criteria.length
      unmet_criteria := all_criteria.filter (fun c => c.verdict = .not_met)
      insufficient_criteria := all_criteria.filter (fun c => c.verdict = .insufficient_data) }

/-- The overall-verdict loop of `evaluate_policy` with its `best_verdict`
and `has_real_evaluation` accumulators; the `break` on MET returns at once. -/
def best_verdict_loop : List IndicationEvaluation → CriterionVerdict → Bool → CriterionVerdict
  | [], best, has_real => if has_real then best else .not_applicable
  | ie :: rest, best, has_real =>
    match ie.overall_verdict with
    | .met => .met
    | .insufficient_data => best_verdict_loop rest .insufficient_data true
    | .not_met => best_verdict_loop rest best true
    | .not_applicable => best_verdict_loop rest best has_real

/-- Python `patient.patient_id or "unknown"`. -/
def py_or_str (o : Option String) (fallback : String) : String :=
  match o with
  | some s => if s = "" then fallback else s
  | none => fallback

/-- Python `evaluate_policy`. -/
def evaluate_policy (pol : DigitizedPolicy) (patient : NormalizedPatientData) :
    PolicyEvaluationResult :=
  let indication_evaluations := pol.indications.map (eval_indication pol patient)
  let exclusion_evaluations :=
    pol.exclusions.flatMap (fun excl =>
      (excl.trigger_criteria.filterMap pol.get_criterion).map
        (fun c => evaluate_criterion c patient))
  let step_therapy_result := evaluate_step_therapy pol patient
  let all_evals := indication_evaluations.flatMap
    (fun ie => collect_all_criteria_evals ie.approval_criteria_result)
  let total := all_evals.length
  let met := (all_evals.filter (fun e => e.verdict = .met)).length
  let overall_readiness : ℚ := if 0 < total then mkRat (met : Int) total else 0
  let overall_verdict :=
    if indication_evaluations.isEmpty then .insufficient_data
    else best_verdict_loop indication_evaluations .not_met false
  let gaps := indication_evaluations.flatMap (fun ie =>
    ie.insufficient_criteria.map (fun ic =>
      { criterion_id := ic.criterion_id
        criterion_name := ic.criterion_name
        indication := ie.indication_name
        gap_type := "insufficient_data"
        action := "Obtain documentation for: " ++ ic.criterion_name })
    ++ (ie.unmet_criteria.filter (·.is_required)).map (fun uc =>
      { criterion_id := uc.criterion_id
        criterion_name := uc.criterion_name
        indication := ie.indication_name
        gap_type := "not_met"
        action := "Address unmet criterion: " ++ uc.criterion_name }))
  { policy_id := pol.policy_id
    patient_id := py_or_str patient.patient_id "unknown"
    indication_evaluations := indication_evaluations
    exclusion_evaluations := exclusion_evaluations
    step_therapy_evaluation := step_therapy_result
    overall_readiness := round3 overall_readiness
    overall_verdict := overall_verdict
    gaps := gaps }

/-- Modelled from the spec: change classification of the differ
(`backend/policy_digitalization/differ.py` is not in the source tree);
§4.8 lists exactly these change types. -/
inductive ChangeType where
  | added
  | removed
  | modified
  | unchanged
deriving DecidableEq, Repr

/-- String value of a change type (Python `change_type.value`). -/
def ChangeType.value : ChangeType → String
  | .added => "added"
  | .removed => "removed"
  | .modified => "modified"
  | .unchanged => "unchanged"

/-- Modelled from the spec: one change entry of a diff; only the fields the
impact analyzer reads (`criterion_id`, `change_type`) are kept. -/
structure PolicyChange where
  criterion_id : String
  change_type : ChangeType
deriving DecidableEq, Repr

/-- Modelled from the spec: diff summary; the impact analyzer reads only
`breaking_changes`. -/
structure DiffSummary where
  breaking_changes : Nat
deriving DecidableEq, Repr

/-- Modelled from the spec: `PolicyDiffResult` restricted to the dimensions
the impact analyzer walks. -/
structure PolicyDiffResult where
  criterion_changes : List PolicyChange
  step_therapy_changes : List PolicyChange
  exclusion_changes : List PolicyChange
  summary : DiffSummary

mutual

/-- The criterion-id/verdict pairs written by `_collect_from_group`
(in `_collect_all_verdicts`), in write order. -/
def verdict_entries_group : GroupEvaluation → List (String × CriterionVerdict)
  | .mk _ _ _ _ crs sgs =>
    crs.map (fun cr => (cr.criterion_id, cr.verdict)) ++ verdict_entries_groups sgs

/-- The pairs written while walking a list of subgroup results. -/
def verdict_entries_groups : List GroupEvaluation → List (String × CriterionVerdict)
  | [] => []
  | g :: rest => verdict_entries_group g ++ verdict_entries_groups rest

end

/-- Lookup in a write-ordered association list with Python dict semantics:
the last write wins. -/
def dict_get (entries : List (String × CriterionVerdict)) (k : String) :
    Option CriterionVerdict :=
  (entries.reverse.find? (fun p => p.1 = k)).map (·.2)

/-- Python `PolicyImpactAnalyzer._collect_all_verdicts`: a criterion-id →
verdict map over all indication trees and the exclusion evaluations,
represented by its write-ordered entry list. -/
def collect_all_verdicts (result : PolicyEvaluationResult) :
    List (String × CriterionVerdict) :=
  result.indication_evaluations.flatMap (fun ie =>
    match ie.approval_criteria_result with
    | some g => verdict_entries_group g
    | none => [])
  ++ result.exclusion_evaluations.map (fun ee => (ee.criterion_id, ee.verdict))

/-- Python `PolicyImpactAnalyzer._find_affected_criteria`.  The changed ids
form a Python set whose iteration order is unspecified; the embedding keeps
first-occurrence order, which fixes the list order without affecting
membership or emptiness. -/
def find_affected_criteria (old_result new_result : PolicyEvaluationResult)
    (diff : PolicyDiffResult) : List String :=
  let all_changes := diff.criterion_changes ++ diff.step_therapy_changes
    ++ diff.exclusion_changes
  let changed_criterion_ids :=
    ((all_changes.filter (fun ch => ch.change_type.value ≠ "unchanged")).map
      (·.criterion_id)).eraseDups
  let old_verdicts := collect_all_verdicts old_result
  let new_verdicts := collect_all_verdicts new_result
  changed_criterion_ids.filter (fun cid =>
    dict_get old_verdicts cid ≠ dict_get new_verdicts cid)

/-- The risk classification chain of `analyze_impact` (lines 86-104 of
impact_analyzer.py): returns `(risk_level, recommended_action)`. -/
def classify_risk (old_verdict new_verdict : CriterionVerdict)
    (affected_criteria : List String) : String × String :=
  let verdict_changed := old_verdict ≠ new_verdict
  if verdict_changed ∧ old_verdict = .met ∧ new_verdict ≠ .met then
    ("verdict_flip", "re-evaluate case immediately; prepare preemptive appeal")
  else if verdict_changed ∧ new_verdict = .not_met ∧ old_verdict = .insufficient_data then
    ("at_risk", "case deteriorated from insufficient data to not met; review changed criteria")
  else if ¬ affected_criteria.isEmpty ∧ new_verdict = .insufficient_data then
    ("at_risk", "gather additional documentation for changed criteria")
  else
    ("no_impact", "no action needed")

/-- Entries of the raw-extraction JSON that the pipeline guard reads;
Python dict/list truthiness is emptiness of these collections. -/
structure ExtractedData where
  atomic_criteria : List String
  indications : List String
deriving DecidableEq, Repr

/-- Python `RawExtractionResult` (extractor.py). -/
structure RawExtractionResult where
  extracted_data : ExtractedData
  source_hash : String
  source_type : String
  extraction_model : Option String
  extraction_timestamp : String
deriving DecidableEq, Repr

/-- Python `ValidatedExtractionResult` (validator.py, shape as read by the
pipeline: extracted data, status, quality score, applied corrections). -/
structure ValidatedExtractionResult where
  extracted_data : ExtractedData
  validation_status : String
  quality_score : ℚ
  corrections_applied : List String

/-- The pipeline's external collaborators (extraction and validation model
calls, the reference validator and the repository `store`), passed as
opaque functions. -/
structure PipelineDeps where
  extract_from_pdf : String → RawExtractionResult
  extract_from_text : String → RawExtractionResult
  load_policy_text_for_pdf : String → String
  validate_extraction : RawExtractionResult → String → ValidatedExtractionResult
  validate_codes : ValidatedExtractionResult → DigitizedPolicy
  store : List DigitizedPolicy → DigitizedPolicy → List DigitizedPolicy × String

/-- Python `DigitalizationResult` (fields the embedded pipeline produces). -/
structure DigitalizationResult where
  policy : Option DigitizedPolicy
  source_type : String
  passes_completed : Nat
  validation_status : String
  quality_score : ℚ
  corrections_count : Nat
  criteria_count : Nat
  indications_count : Nat
  stored : Bool
  cache_id : Option String

/-- Which pipeline stages ran during a call. -/
structure PipelineTrace where
  pass2_ran : Bool
  pass3_ran : Bool
  stored : Bool
deriving DecidableEq, Repr

/-- Python `digitalize_policy`: Pass 1 extraction, the empty-extraction
guard, Pass 2 validation (or the skip placeholder), Pass 3 reference
validation, then the repository store.  The repository state is threaded
explicitly; an `Except.error` models the raised `ExtractionError`. -/
def digitalize_policy (deps : PipelineDeps) (repo : List DigitizedPolicy)
    (source : String) (source_type : String) (skip_validation : Bool) :
    Except String DigitalizationResult × List DigitizedPolicy × PipelineTrace :=
  let raw := if source_type = "pdf" then deps.extract_from_pdf source
    else deps.extract_from_text source
  let policy_text := if source_type = "pdf" then deps.load_policy_text_for_pdf source
    else source
  if raw.extracted_data.atomic_criteria.isEmpty
      && raw.extracted_data.indications.isEmpty then
    (.error ("Pass 1 returned empty extraction (no criteria or indications). Source length: "
        ++ toString source.length ++ " chars, model: " ++ opt_display raw.extraction_model),
      repo, { pass2_ran := false, pass3_ran := false, stored := false })
  else
    let validated :=
      if skip_validation then
        { extracted_data := raw.extracted_data
          validation_status := "skipped"
          quality_score := 7/10
          corrections_applied := [] }
      else deps.validate_extraction raw policy_text
    let policy := deps.validate_codes validated
    let stored := deps.store repo policy
    (.ok
      { policy := some policy
        source_type := source_type
        passes_completed := 3
        validation_status := validated.validation_status
        quality_score := validated.quality_score
        corrections_count := validated.corrections_applied.length
        criteria_count := policy.atomic_criteria.length
        indications_count := policy.indications.length
        stored := true
        cache_id := some stored.2 },
      stored.1, { pass2_ran := ¬ skip_validation, pass3_ran := true, stored := true })

/-! Spec-side definitions: written from the words of the spec and of the
claims, for comparison against the source-derived functions above. -/

/-- Claim C1 read literally: NOT_APPLICABLE children are dropped first for
every operator, so NOT inspects the first REMAINING child verdict. -/
def combine_verdicts_claim (verdicts : List CriterionVerdict)
    (operator : LogicalOperator) (negated : Bool) : CriterionVerdict :=
  let effective := verdicts.filter (fun v => v ≠ .not_applicable)
  if effective.isEmpty then .not_applicable
  else
    let result :=
      match operator with
      | .AND =>
        if (∀ v ∈ effective, v = CriterionVerdict.met) then .met
        else if (∃ v ∈ effective, v = CriterionVerdict.not_met) then .not_met
        else .insufficient_data
      | .OR =>
        if (∃ v ∈ effective, v = CriterionVerdict.met) then .met
        else if (∀ v ∈ effective, v = CriterionVerdict.not_met) then .not_met
        else .insufficient_data
      | .NOT =>
        match effective.head? with
        | some .met => .not_met
        | some .not_met => .met
        | some child => child
        | none => .not_applicable
    if negated then
      match result with
      | .met => .not_met
      | .not_met => .met
      | r => r
    else result

/-- Claim C1 amended to the source behaviour: identical to the claim
reading except that NOT inspects the first verdict of the ORIGINAL child
list, so a leading NOT_APPLICABLE is propagated rather than dropped. -/
def combine_verdicts_amended (verdicts : List CriterionVerdict)
    (operator : LogicalOperator) (negated : Bool) : CriterionVerdict :=
  let effective := verdicts.filter (fun v => v ≠ .not_applicable)
  if effective.isEmpty then .not_applicable
  else
    let result :=
      match operator with
      | .AND =>
        if (∀ v ∈ effective, v = CriterionVerdict.met) then .met
        else if (∃ v ∈ effective, v = CriterionVerdict.not_met) then .not_met
        else .insufficient_data
      | .OR =>
        if (∃ v ∈ effective, v = CriterionVerdict.met) then .met
        else if (∀ v ∈ effective, v = CriterionVerdict.not_met) then .not_met
        else .insufficient_data
      | .NOT =>
        match verdicts.head? with
        | some .met => .not_met
        | some .not_met => .met
        | some child => child
        | none => .not_applicable
    if negated then
      match result with
      | .met => .not_met
      | .not_met => .met
      | r => r
    else result

/-- The spec's overall-verdict rule: best indication verdict in the order
MET > INSUFFICIENT_DATA > NOT_MET, NOT_APPLICABLE when none of the three
occurs. -/
def spec_best (vs : List CriterionVerdict) : CriterionVerdict :=
  if CriterionVerdict.met ∈ vs then .met
  else if CriterionVerdict.insufficient_data ∈ vs then .insufficient_data
  else if CriterionVerdict.not_met ∈ vs then .not_met
  else .not_applicable

/-! Concrete fixtures used by counterexamples and witnesses. -/

/-- A gender criterion with no allowed values and no threshold. -/
def gender_any : AtomicCriterion :=
  { criterion_id := "GC"
    criterion_type := .gender
    name := "Gender"
    description := ""
    clinical_codes := []
    comparison_operator := none
    threshold_value := none
    threshold_value_upper := none
    allowed_values := []
    drug_names := []
    drug_classes := []
    minimum_duration_days := none
    is_required := true }

/-- An age criterion requiring age ≥ 6. -/
def age_ge6 : AtomicCriterion :=
  { gender_any with
    criterion_id := "AGE6"
    criterion_type := .age
    name := "Age"
    comparison_operator := some .gte
    threshold_value := some (.num 6) }

/-- A documentation criterion (always INSUFFICIENT_DATA). -/
def doc_criterion (cid : String) : AtomicCriterion :=
  { gender_any with
    criterion_id := cid
    criterion_type := .documentation_present
    name := "Documentation " ++ cid }

/-- A patient whose only datum is gender "female". -/
def patient_f : NormalizedPatientData :=
  { empty_patient with gender := some "female" }

/-- A patient whose only datum is age 39. -/
def patient_age39 : NormalizedPatientData :=
  { empty_patient with age_years := some 39 }

/-- OR group that contains itself as a subgroup next to a MET criterion. -/
def cyc_group : CriterionGroup :=
  { group_id := "A", name := "A", operator := .OR
    criteria := ["GC"], subgroups := ["A"], negated := false }

/-- Policy holding `cyc_group`. -/
def cyc_policy : DigitizedPolicy :=
  { policy_id := "CYC"
    atomic_criteria := [("GC", gender_any)]
    criterion_groups := [("A", cyc_group)]
    indications := []
    exclusions := []
    step_therapy_requirements := [] }

/-- AND group whose only child is itself. -/
def loop_group : CriterionGroup :=
  { group_id := "L", name := "L", operator := .AND
    criteria := [], subgroups := ["L"], negated := false }

/-- Policy holding `loop_group`. -/
def loop_policy : DigitizedPolicy :=
  { cyc_policy with
    policy_id := "LOOP"
    atomic_criteria := []
    criterion_groups := [("L", loop_group)] }

/-- Diamond: parent P reaches D through both siblings L and R. -/
def dia_D : CriterionGroup :=
  { group_id := "D", name := "D", operator := .AND
    criteria := ["GC"], subgroups := [], negated := false }

/-- Left arm of the diamond. -/
def dia_L : CriterionGroup :=
  { dia_D with group_id := "L", name := "L", criteria := [], subgroups := ["D"] }

/-- Right arm of the diamond. -/
def dia_R : CriterionGroup :=
  { dia_D with group_id := "R", name := "R", criteria := [], subgroups := ["D"] }

/-- Top of the diamond. -/
def dia_P : CriterionGroup :=
  { dia_D with group_id := "P", name := "P", criteria := [], subgroups := ["L", "R"] }

/-- Policy holding the diamond. -/
def dia_policy : DigitizedPolicy :=
  { cyc_policy with
    policy_id := "DIA"
    criterion_groups := [("P", dia_P), ("L", dia_L), ("R", dia_R), ("D", dia_D)] }

/-- Indication whose approval-criteria group id resolves to nothing. -/
def bad_ind : IndicationCriteria :=
  { indication_id := "I1", indication_name := "Ind"
    indication_codes := [], initial_approval_criteria := "nope" }

/-- Policy with a single dangling indication. -/
def bad_policy : DigitizedPolicy :=
  { policy_id := "BAD"
    atomic_criteria := []
    criterion_groups := []
    indications := [bad_ind]
    exclusions := []
    step_therapy_requirements := [] }

/-- Policy with no indications at all. -/
def no_ind_policy : DigitizedPolicy :=
  { bad_policy with policy_id := "EMPTY", indications := [] }

/-- AND group over one MET age criterion and two documentation criteria. -/
def third_group : CriterionGroup :=
  { group_id := "G", name := "G", operator := .AND
    criteria := ["AGE6", "D1", "D2"], subgroups := [], negated := false }

/-- Policy on which exactly one of three criteria evaluates MET. -/
def one_third_policy : DigitizedPolicy :=
  { policy_id := "THIRD"
    atomic_criteria := [("AGE6", age_ge6), ("D1", doc_criterion "D1"), ("D2", doc_criterion "D2")]
    criterion_groups := [("G", third_group)]
    indications := [{ indication_id := "I", indication_name := "Ind"
                      indication_codes := [], initial_approval_criteria := "G" }]
    exclusions := []
    step_therapy_requirements := [] }

/-- Step-therapy requirement of scenario S4: one trial, intolerance accepted. -/
def s4_req : StepTherapyRequirement :=
  { requirement_id := "ST1", indication := "crohns"
    required_drugs := ["azathioprine"], required_drug_classes := []
    minimum_trials := 1, minimum_duration_days := none
    failure_required := true, intolerance_acceptable := true
    contraindication_acceptable := false }

/-- Policy holding the S4 requirement. -/
def s4_policy : DigitizedPolicy :=
  { no_ind_policy with policy_id := "S4", step_therapy_requirements := [s4_req] }

/-- Patient of scenario S4: azathioprine, outcome intolerant. -/
def s4_patient : NormalizedPatientData :=
  { empty_patient with
    prior_treatments := [{ medication_name := "azathioprine", drug_class := none
                           duration_weeks := none, outcome := some "intolerant"
                           adequate_trial := false }] }

/-- A bare criterion evaluation used to assemble impact-analysis fixtures. -/
def bare_eval (cid : String) (v : CriterionVerdict) : CriterionEvaluation :=
  { criterion_id := cid, criterion_name := cid, verdict := v
    confidence := 1, evidence := [], reasoning := "", is_required := true }

/-- Old-version evaluation for the impact fixture: criterion C1 MET,
overall MET. -/
def c8_old_result : PolicyEvaluationResult :=
  { policy_id := "P", patient_id := "x"
    indication_evaluations := []
    exclusion_evaluations := [bare_eval "C1" .met]
    step_therapy_evaluation := { required := false, satisfied := true, details := [] }
    overall_readiness := 0
    overall_verdict := .met
    gaps := [] }

/-- New-version evaluation for the impact fixture: criterion C1 flipped to
NOT_MET while the overall verdict stayed MET. -/
def c8_new_result : PolicyEvaluationResult :=
  { c8_old_result with exclusion_evaluations := [bare_eval "C1" .not_met] }

/-- Diff fixture marking criterion C1 as modified. -/
def c8_diff : PolicyDiffResult :=
  { criterion_changes := [{ criterion_id := "C1", change_type := .modified }]
    step_therapy_changes := []
    exclusion_changes := []
    summary := { breaking_changes := 0 } }

/-- A raw extraction with no criteria and no indications. -/
def empty_raw : RawExtractionResult :=
  { extracted_data := { atomic_criteria := [], indications := [] }
    source_hash := "", source_type := "text"
    extraction_model := none, extraction_timestamp := "" }

/-- Constant collaborators used to instantiate the pipeline theorems. -/
def const_deps : PipelineDeps :=
  { extract_from_pdf := fun _ => empty_raw
    extract_from_text := fun _ => empty_raw
    load_policy_text_for_pdf := fun _ => ""
    validate_extraction := fun r _ =>
      { extracted_data := r.extracted_data, validation_status := "ok"
        quality_score := 1, corrections_applied := [] }
    validate_codes := fun _ => no_ind_policy
    store := fun repo p => (repo ++ [p], "cache") }

/-- A group with its unresolvable criterion and subgroup references removed
(used to state that `evaluate_group` skips unresolved references). -/
def prune_unresolved (pol : DigitizedPolicy) (g : CriterionGroup) : CriterionGroup :=
  { g with
    criteria := g.criteria.filter (fun cid => (pol.get_criterion cid).isSome)
    subgroups := g.subgroups.filter (fun gid => (pol.get_group gid).isSome) }

/-! Helper lemmas shared by the claim theorems. -/

/-- Filtering a list to the elements where `f` hits does not change `filterMap f`. -/
theorem filterMap_filter_isSome {α β : Type} (f : α → Option β) (l : List α) :
    (l.filter (fun x => (f x).isSome)).filterMap f = l.filterMap f := by
  induction l with
  | nil => rfl
  | cons a l ih =>
    by_cases h : (f a).isSome
    · rw [List.filter_cons_of_pos (by simpa using h)]
      cases hfa : f a with
      | none => simp [hfa] at h
      | some b => simp [List.filterMap_cons, hfa, ih]
    · rw [List.filter_cons_of_neg (by simpa using h)]
      cases hfa : f a with
      | none => simp [List.filterMap_cons, hfa, ih]
      | some b => simp [hfa] at h

/-- `option_mapM` succeeds when every element maps to `some`. -/
theorem option_mapM_isSome {α β : Type} (f : α → Option β) (l : List α)
    (h : ∀ x ∈ l, (f x).isSome) : (option_mapM f l).isSome := by
  induction l with
  | nil => rfl
  | cons a l ih =>
    have ha := h a (by simp)
    cases hfa : f a with
    | none => rw [hfa] at ha; simp at ha
    | some b =>
      have hrest : (option_mapM f l).isSome := ih (fun x hx => h x (by simp [hx]))
      cases hl : option_mapM f l with
      | none => rw [hl] at hrest; simp at hrest
      | some bs => simp [option_mapM, hfa, hl]

/-- A group returned by `get_group` carries a group id listed in
`group_field_ids`. -/
theorem get_group_field_id_mem (pol : DigitizedPolicy) (gid : String)
    (sg : CriterionGroup) (h : pol.get_group gid = some sg) :
    sg.group_id ∈ group_field_ids pol := by
  unfold DigitizedPolicy.get_group at h
  cases hf : pol.criterion_groups.find? (fun p => p.1 = gid) with
  | none => rw [hf] at h; simp at h
  | some p =>
    rw [hf] at h
    have hp : p ∈ pol.criterion_groups := List.mem_of_find?_eq_some hf
    have hsg : sg = p.2 := by
      simpa using h.symm
    subst hsg
    exact List.mem_map.mpr ⟨p, hp, rfl⟩

/-- Fuel adequacy for groups whose id occurs among the policy's stored
group ids: the visited set can only grow inside that finite id set, so the
count of unvisited ids is a valid fuel measure. -/
theorem eval_group_fuel_isSome_of_mem (pol : DigitizedPolicy) (pat : NormalizedPatientData) :
    ∀ (fuel : Nat) (g : CriterionGroup) (visited : List String),
    g.group_id ∈ group_field_ids pol →
    ((group_field_ids pol).toFinset \ visited.toFinset).card < fuel →
    (eval_group_fuel pol pat fuel g visited).isSome := by
  intro fuel
  induction fuel with
  | zero => intro g visited _ hcard; omega
  | succ n ih =>
    intro g visited hmem hcard
    unfold eval_group_fuel
    by_cases hv : g.group_id ∈ visited
    · simp [hv]
    · simp only [hv, if_false]
      have hsub : ∀ sg ∈ g.subgroups.filterMap pol.get_group,
          (eval_group_fuel pol pat n sg (g.group_id :: visited)).isSome := by
        intro sg hsg
        obtain ⟨gid, _, hget⟩ := List.mem_filterMap.mp hsg
        apply ih
        · exact get_group_field_id_mem pol gid sg hget
        · have ha : g.group_id ∈ (group_field_ids pol).toFinset \ visited.toFinset := by
            simp only [Finset.mem_sdiff, List.mem_toFinset]
            exact ⟨hmem, hv⟩
          have hne : 0 < ((group_field_ids pol).toFinset \ visited.toFinset).card :=
            Finset.card_pos.mpr ⟨g.group_id, ha⟩
          have hstep : ((group_field_ids pol).toFinset \ (g.group_id :: visited).toFinset).card
              = ((group_field_ids pol).toFinset \ visited.toFinset).card - 1 := by
            rw [List.toFinset_cons, Finset.sdiff_insert, Finset.card_erase_of_mem ha]
          omega
      have hm := option_mapM_isSome _ _ hsub
      cases hopt : option_mapM (fun sg => eval_group_fuel pol pat n sg (g.group_id :: visited))
          (g.subgroups.filterMap pol.get_group) with
      | none => rw [hopt] at hm; simp at hm
      | some subs => simp [hopt]

/-- Fuel adequacy for an arbitrary root group: one extra unit of fuel pays
the first call, after which every recursion stays inside the stored ids. -/
theorem eval_group_fuel_isSome_root (pol : DigitizedPolicy) (pat : NormalizedPatientData) :
    ∀ (fuel : Nat) (g : CriterionGroup) (visited : List String),
    (group_field_ids pol).toFinset.card + 1 < fuel →
    (eval_group_fuel pol pat fuel g visited).isSome := by
  intro fuel
  cases fuel with
  | zero => intro g visited h; omega
  | succ n =>
    intro g visited h
    unfold eval_group_fuel
    by_cases hv : g.group_id ∈ visited
    · simp [hv]
    · simp only [hv, if_false]
      have hsub : ∀ sg ∈ g.subgroups.filterMap pol.get_group,
          (eval_group_fuel pol pat n sg (g.group_id :: visited)).isSome := by
        intro sg hsg
        obtain ⟨gid, _, hget⟩ := List.mem_filterMap.mp hsg
        apply eval_group_fuel_isSome_of_mem
        · exact get_group_field_id_mem pol gid sg hget
        · have hle : ((group_field_ids pol).toFinset \ (g.group_id :: visited).toFinset).card
              ≤ (group_field_ids pol).toFinset.card :=
            Finset.card_le_card (Finset.sdiff_subset)
          omega
      have hm := option_mapM_isSome _ _ hsub
      cases hopt : option_mapM (fun sg => eval_group_fuel pol pat n sg (g.group_id :: visited))
          (g.subgroups.filterMap pol.get_group) with
      | none => rw [hopt] at hm; simp at hm
      | some subs => simp [hopt]

/-- The fuel chosen by `evaluate_group` always suffices: the traversal
terminates on every policy, cyclic group graphs included. -/
theorem evaluate_group_total (pol : DigitizedPolicy) (pat : NormalizedPatientData)
    (g : CriterionGroup) (visited : List String) :
    (eval_group_fuel pol pat (group_fuel pol) g visited).isSome :=
  eval_group_fuel_isSome_root pol pat _ g visited (by unfold group_fuel; omega)

/-- `spec_best` on a cons headed by MET. -/
theorem spec_best_cons_met (vs : List CriterionVerdict) :
    spec_best (.met :: vs) = .met := by
  simp [spec_best]

/-- `spec_best` on a cons headed by INSUFFICIENT_DATA. -/
theorem spec_best_cons_insufficient (vs : List CriterionVerdict) :
    spec_best (.insufficient_data :: vs) =
      if CriterionVerdict.met ∈ vs then .met else .insufficient_data := by
  simp [spec_best]

/-- `spec_best` on a cons headed by NOT_MET. -/
theorem spec_best_cons_not_met (vs : List CriterionVerdict) :
    spec_best (.not_met :: vs) =
      if CriterionVerdict.met ∈ vs then .met
      else if CriterionVerdict.insufficient_data ∈ vs then .insufficient_data
      else .not_met := by
  simp [spec_best]

/-- `spec_best` ignores a leading NOT_APPLICABLE. -/
theorem spec_best_cons_na (vs : List CriterionVerdict) :
    spec_best (.not_applicable :: vs) = spec_best vs := by
  simp [spec_best]

/-- `spec_best` is MET exactly when MET occurs. -/
theorem spec_best_eq_met_iff (vs : List CriterionVerdict) :
    spec_best vs = .met ↔ CriterionVerdict.met ∈ vs := by
  unfold spec_best; split_ifs <;> simp_all

/-- `spec_best` is INSUFFICIENT_DATA exactly when it occurs and MET does not. -/
theorem spec_best_eq_insufficient_iff (vs : List CriterionVerdict) :
    spec_best vs = .insufficient_data ↔
      (CriterionVerdict.met ∉ vs ∧ CriterionVerdict.insufficient_data ∈ vs) := by
  unfold spec_best; split_ifs <;> simp_all

/-- Characterization of the overall-verdict loop for arbitrary accumulator
states: MET and INSUFFICIENT_DATA in the list decide the result; NOT_MET
keeps the running best; an all-NOT_APPLICABLE tail falls back on the
`has_real` flag. -/
theorem best_verdict_loop_char :
    ∀ (l : List IndicationEvaluation) (best : CriterionVerdict) (has_real : Bool),
    best_verdict_loop l best has_real =
      match spec_best (l.map (·.overall_verdict)) with
      | .met => .met
      | .insufficient_data => .insufficient_data
      | .not_met => best
      | .not_applicable => if has_real then best else .not_applicable := by
  intro l
  induction l with
  | nil =>
    intro best has_real
    simp [best_verdict_loop, spec_best]
  | cons ie l ih =>
    intro best has_real
    cases hie : ie.overall_verdict with
    | met =>
      simp [best_verdict_loop, hie, spec_best_cons_met]
    | insufficient_data =>
      rw [List.map_cons, hie, spec_best_cons_insufficient]
      have hl : best_verdict_loop (ie :: l) best has_real =
          best_verdict_loop l .insufficient_data true := by
        simp [best_verdict_loop, hie]
      rw [hl, ih]
      by_cases hm : CriterionVerdict.met ∈ l.map (·.overall_verdict)
      · have : spec_best (l.map (·.overall_verdict)) = .met := by simp [spec_best, hm]
        simp [this, hm]
      · rw [if_neg hm]
        cases hs : spec_best (l.map (·.overall_verdict)) with
        | met => exact absurd ((spec_best_eq_met_iff _).mp hs) hm
        | insufficient_data => rfl
        | not_met => rfl
        | not_applicable => rfl
    | not_met =>
      rw [List.map_cons, hie, spec_best_cons_not_met]
      have hl : best_verdict_loop (ie :: l) best has_real =
          best_verdict_loop l best true := by
        simp [best_verdict_loop, hie]
      rw [hl, ih]
      by_cases hm : CriterionVerdict.met ∈ l.map (·.overall_verdict)
      · have : spec_best (l.map (·.overall_verdict)) = .met := by simp [spec_best, hm]
        simp [this, hm]
      · by_cases hi : CriterionVerdict.insufficient_data ∈ l.map (·.overall_verdict)
        · have : spec_best (l.map (·.overall_verdict)) = .insufficient_data := by
            simp [spec_best, hm, hi]
          simp [this, hm, hi]
        · rw [if_neg hm, if_neg hi]
          cases hs : spec_best (l.map (·.overall_verdict)) with
          | met => exact absurd ((spec_best_eq_met_iff _).mp hs) hm
          | insufficient_data => exact absurd ((spec_best_eq_insufficient_iff _).mp hs).2 hi
          | not_met => rfl
          | not_applicable => rfl
    | not_applicable =>
      rw [List.map_cons, hie, spec_best_cons_na]
      have hl : best_verdict_loop (ie :: l) best has_real =
          best_verdict_loop l best has_real := by
        simp [best_verdict_loop, hie]
      rw [hl, ih]

/-- Removing the unresolvable references from a group does not change its
evaluation at any fuel: `evaluate_group` skips them. -/
theorem eval_group_fuel_prune (pol : DigitizedPolicy) (pat : NormalizedPatientData) :
    ∀ (fuel : Nat) (g : CriterionGroup) (visited : List String),
    eval_group_fuel pol pat fuel (prune_unresolved pol g) visited
      = eval_group_fuel pol pat fuel g visited := by
  intro fuel
  cases fuel with
  | zero => intro g visited; rfl
  | succ n =>
    intro g visited
    unfold eval_group_fuel
    have hc : (prune_unresolved pol g).criteria.filterMap pol.get_criterion
        = g.criteria.filterMap pol.get_criterion := by
      show (g.criteria.filter _).filterMap pol.get_criterion = _
      exact filterMap_filter_isSome pol.get_criterion g.criteria
    have hs : (prune_unresolved pol g).subgroups.filterMap pol.get_group
        = g.subgroups.filterMap pol.get_group := by
      show (g.subgroups.filter _).filterMap pol.get_group = _
      exact filterMap_filter_isSome pol.get_group g.subgroups
    have hgid : (prune_unresolved pol g).group_id = g.group_id := rfl
    have hop : (prune_unresolved pol g).operator = g.operator := rfl
    have hneg : (prune_unresolved pol g).negated = g.negated := rfl
    have hcyc : cycle_evaluation (prune_unresolved pol g) = cycle_evaluation g := rfl
    rw [hc, hs, hgid, hop, hneg, hcyc]

/-- Length of a `flatMap` is the sum of the piece lengths. -/
theorem length_flatMap_eq_sum {α β : Type} (f : α → List β) (l : List α) :
    (l.flatMap f).length = (l.map (fun a => (f a).length)).sum := by
  induction l with
  | nil => rfl
  | cons a l ih => simp [List.flatMap_cons, ih]

/-- Length of a filtered `flatMap` is the sum of the filtered piece lengths. -/
theorem length_filter_flatMap_eq_sum {α β : Type} (p : β → Bool) (f : α → List β)
    (l : List α) :
    ((l.flatMap f).filter p).length = (l.map (fun a => ((f a).filter p).length)).sum := by
  induction l with
  | nil => rfl
  | cons a l ih => simp [List.flatMap_cons, List.filter_append, ih]

/-- The counts stored on an indication evaluation agree with the flat list
of its collected criterion evaluations. -/
theorem eval_indication_counts (pol : DigitizedPolicy) (pat : NormalizedPatientData)
    (ind : IndicationCriteria) :
    (eval_indication pol pat ind).criteria_total_count
        = (collect_all_criteria_evals (eval_indication pol pat ind).approval_criteria_result).length
      ∧ (eval_indication pol pat ind).criteria_met_count
        = ((collect_all_criteria_evals
            (eval_indication pol pat ind).approval_criteria_result).filter
              (fun c => c.verdict = .met)).length := by
  unfold eval_indication
  cases pol.get_group ind.initial_approval_criteria with
  | none => exact ⟨rfl, rfl⟩
  | some root => exact ⟨rfl, rfl⟩

/-- The `drugs_tried` accumulator of the step-therapy loop counts the items
with a matching prior treatment. -/
theorem st_items_loop_tried (req : StepTherapyRequirement) (pat : NormalizedPatientData) :
    ∀ (items : List String) (tried failed : Nat) (details : List StepDrugDetail),
    (st_items_loop req pat items tried failed details).1
      = tried + items.countP (fun item =>
          (pat.prior_treatments.find? (st_tx_matches (py_lower item))).isSome) := by
  intro items
  induction items with
  | nil => intros; simp [st_items_loop]
  | cons item rest ih =>
    intro tried failed details
    unfold st_items_loop
    cases hf : pat.prior_treatments.find? (st_tx_matches (py_lower item)) with
    | none => simp [hf, ih, List.countP_cons]
    | some tx =>
      cases hd : st_outcome_detail req tx with
      | none => simp [hf, hd, ih, List.countP_cons]; omega
      | some d => simp [hf, hd, ih, List.countP_cons]; omega

/-- The `drugs_failed` accumulator of the step-therapy loop counts the items
whose first matching treatment has an accepted failure outcome. -/
theorem st_items_loop_failed (req : StepTherapyRequirement) (pat : NormalizedPatientData) :
    ∀ (items : List String) (tried failed : Nat) (details : List StepDrugDetail),
    (st_items_loop req pat items tried failed details).2.1
      = failed + items.countP (fun item =>
          match pat.prior_treatments.find? (st_tx_matches (py_lower item)) with
          | some tx => (st_outcome_detail req tx).isSome
          | none => false) := by
  intro items
  induction items with
  | nil => intros; simp [st_items_loop]
  | cons item rest ih =>
    intro tried failed details
    unfold st_items_loop
    cases hf : pat.prior_treatments.find? (st_tx_matches (py_lower item)) with
    | none => simp [hf, ih, List.countP_cons]
    | some tx =>
      cases hd : st_outcome_detail req tx with
      | none => simp [hf, hd, ih, List.countP_cons]
      | some d => simp [hf, hd, ih, List.countP_cons]; omega

/-- Declarative reading of the step-therapy outcome test: plain failure
outcomes always count; intolerance and contraindication count only when the
requirement accepts them. -/
theorem st_outcome_detail_isSome_iff (req : StepTherapyRequirement) (tx : NormalizedTreatment) :
    (st_outcome_detail req tx).isSome = true ↔
      ((∃ o, tx.outcome = some o ∧ o ∈ failed_outcomes)
        ∨ (tx.outcome = some "intolerant" ∧ req.intolerance_acceptable = true)
        ∨ (tx.outcome = some "contraindicated" ∧ req.contraindication_acceptable = true)) := by
  unfold st_outcome_detail
  cases ho : tx.outcome with
  | none => simp
  | some o =>
    simp only [ho]
    split_ifs with h1 h2 h3 <;>
      simp_all [failed_outcomes]

/-- The source combiner equals the amended spec-side combiner on every
input: NOT_APPLICABLE entries are transparent to the emptiness test and to
AND/OR, while NOT inspects the first verdict of the original child list. -/
theorem combine_verdicts_eq_amended :
    ∀ (vs : List CriterionVerdict) (op : LogicalOperator) (neg : Bool),
    combine_verdicts vs op neg = combine_verdicts_amended vs op neg := by
  intro vs op neg
  unfold combine_verdicts combine_verdicts_amended
  cases vs with
  | nil => simp
  | cons a l =>
    simp only [List.isEmpty_cons, Bool.false_eq_true, if_false]
    by_cases he : ((a :: l).filter (fun v => v ≠ CriterionVerdict.not_applicable)).isEmpty
    · rw [if_pos he, if_pos he]
    · rw [if_neg he, if_neg he]
      cases op with
      | AND =>
        by_cases hall : ∀ v ∈ (a :: l).filter (fun v => v ≠ CriterionVerdict.not_applicable),
            v = CriterionVerdict.met
        · have hb : ((a :: l).filter (fun v => v ≠ CriterionVerdict.not_applicable)).all
              (fun v => v = CriterionVerdict.met) = true :=
            List.all_eq_true.mpr (fun v hv => by simpa using hall v hv)
          rw [if_pos hb, if_pos hall]
        · have hb : ¬ ((a :: l).filter (fun v => v ≠ CriterionVerdict.not_applicable)).all
              (fun v => v = CriterionVerdict.met) = true := by
            intro hb
            exact hall (fun v hv => by simpa using List.all_eq_true.mp hb v hv)
          rw [if_neg hb, if_neg hall]
          by_cases hany : ∃ v ∈ (a :: l).filter (fun v => v ≠ CriterionVerdict.not_applicable),
              v = CriterionVerdict.not_met
          · have hb2 : ((a :: l).filter (fun v => v ≠ CriterionVerdict.not_applicable)).any
                (fun v => v = CriterionVerdict.not_met) = true := by
              obtain ⟨v, hv, hveq⟩ := hany
              exact List.any_eq_true.mpr ⟨v, hv, by simpa using hveq⟩
            rw [if_pos hb2, if_pos hany]
          · have hb2 : ¬ ((a :: l).filter (fun v => v ≠ CriterionVerdict.not_applicable)).any
                (fun v => v = CriterionVerdict.not_met) = true := by
              intro hb2
              obtain ⟨v, hv, hveq⟩ := List.any_eq_true.mp hb2
              exact hany ⟨v, hv, by simpa using hveq⟩
            rw [if_neg hb2, if_neg hany]
      | OR =>
        by_cases hany : ∃ v ∈ (a :: l).filter (fun v => v ≠ CriterionVerdict.not_applicable),
            v = CriterionVerdict.met
        · have hb : ((a :: l).filter (fun v => v ≠ CriterionVerdict.not_applicable)).any
              (fun v => v = CriterionVerdict.met) = true := by
            obtain ⟨v, hv, hveq⟩ := hany
            exact List.any_eq_true.mpr ⟨v, hv, by simpa using hveq⟩
          rw [if_pos hb, if_pos hany]
        · have hb : ¬ ((a :: l).filter (fun v => v ≠ CriterionVerdict.not_applicable)).any
              (fun v => v = CriterionVerdict.met) = true := by
            intro hb
            obtain ⟨v, hv, hveq⟩ := List.any_eq_true.mp hb
            exact hany ⟨v, hv, by simpa using hveq⟩
          rw [if_neg hb, if_neg hany]
          by_cases hall : ∀ v ∈ (a :: l).filter (fun v => v ≠ CriterionVerdict.not_applicable),
              v = CriterionVerdict.not_met
          · have hb2 : ((a :: l).filter (fun v => v ≠ CriterionVerdict.not_applicable)).all
                (fun v => v = CriterionVerdict.not_met) = true :=
              List.all_eq_true.mpr (fun v hv => by simpa using hall v hv)
            rw [if_pos hb2, if_pos hall]
          · have hb2 : ¬ ((a :: l).filter (fun v => v ≠ CriterionVerdict.not_applicable)).all
                (fun v => v = CriterionVerdict.not_met) = true := by
              intro hb2
              exact hall (fun v hv => by simpa using List.all_eq_true.mp hb2 v hv)
            rw [if_neg hb2, if_neg hall]
      | NOT =>
        cases a <;> rfl

/-- Claim C1 (corrected), counterexample to the claim as stated: on the
child verdicts [NOT_APPLICABLE, MET] under NOT, dropping NOT_APPLICABLE
first (as the claim reads) would yield NOT_MET, but the source inspects the
first verdict of the original list and returns NOT_APPLICABLE. -/
theorem claim_C1_counterexample :
    combine_verdicts [.not_applicable, .met] .NOT false = .not_applicable
      ∧ combine_verdicts_claim [.not_applicable, .met] .NOT false = .not_met
      ∧ CriterionVerdict.not_applicable ≠ CriterionVerdict.not_met := by
  refine ⟨rfl, rfl, by decide⟩

/-- Claim C1 (amended): the group combiner drops NOT_APPLICABLE children
for the emptiness rule and for AND/OR (returning NOT_APPLICABLE when
nothing remains; AND: all MET ⇒ MET, any NOT_MET ⇒ NOT_MET, else
INSUFFICIENT_DATA; OR: any MET ⇒ MET, all NOT_MET ⇒ NOT_MET, else
INSUFFICIENT_DATA); under NOT it inspects the first verdict of the
ORIGINAL child list (MET ↔ NOT_MET, anything else — NOT_APPLICABLE
included — propagates); `negated` swaps MET and NOT_MET afterwards. -/
theorem claim_C1_theorem :
    ∀ (vs : List CriterionVerdict) (op : LogicalOperator) (neg : Bool),
    combine_verdicts vs op neg = combine_verdicts_amended vs op neg :=
  combine_verdicts_eq_amended

/-- Claim C2 (confirmed): every registered criterion type evaluated against
the empty patient record returns INSUFFICIENT_DATA or NOT_APPLICABLE, never
NOT_MET (in fact always INSUFFICIENT_DATA). -/
theorem claim_C2_theorem :
    ∀ (c : AtomicCriterion),
    (evaluate_criterion c empty_patient).verdict = .insufficient_data
      ∨ (evaluate_criterion c empty_patient).verdict = .not_applicable := by
  intro c
  left
  cases hct : c.criterion_type <;>
    simp [evaluate_criterion, hct, EVALUATOR_REGISTRY, evaluate_age, evaluate_gender,
      evaluate_diagnosis_confirmed, evaluate_diagnosis_severity,
      evaluate_prior_treatment_tried, evaluate_prior_treatment_failed,
      evaluate_prior_treatment_intolerant, evaluate_prior_treatment_contraindicated,
      evaluate_prior_treatment_duration, evaluate_lab_value, evaluate_lab_test_completed,
      evaluate_safety_screening_completed, evaluate_safety_screening_negative,
      evaluate_prescriber_specialty, evaluate_prescriber_consultation,
      evaluate_documentation, evaluate_disease_duration, evaluate_concurrent_therapy,
      evaluate_custom, empty_patient, opt_str_truthy, mk_eval]

/-- Claim C10 (corrected), counterexample to the claim as stated: a patient
whose gender field is set to the empty string is rejected by the Python
truthiness guard, so the gender evaluator returns INSUFFICIENT_DATA, not
MET. -/
theorem claim_C10_counterexample :
    ({ empty_patient with gender := some "" } : NormalizedPatientData).gender = some ""
      ∧ (evaluate_criterion gender_any
          { empty_patient with gender := some "" }).verdict = .insufficient_data
      ∧ CriterionVerdict.insufficient_data ≠ CriterionVerdict.met := by
  refine ⟨rfl, rfl, by decide⟩

/-- Claim C10 (amended): for every patient whose gender is set to a
NON-EMPTY string and every gender criterion with an empty allowed_values
list and no threshold_value, the gender evaluator returns MET regardless of
the gender value. -/
theorem claim_C10_theorem :
    ∀ (c : AtomicCriterion) (pat : NormalizedPatientData) (g : String),
    c.criterion_type = .gender → c.allowed_values = [] → c.threshold_value = none →
    pat.gender = some g → g ≠ "" →
    (evaluate_criterion c pat).verdict = .met := by
  intro c pat g hct hav htv hg hne
  simp [evaluate_criterion, hct, EVALUATOR_REGISTRY, evaluate_gender, hg, hav, htv,
    opt_str_truthy, hne, mk_eval]

/-- Witness for claim C10: the amended theorem applied to the fixture
criterion and the patient with gender "female". -/
theorem claim_C10_witness :
    (evaluate_criterion gender_any patient_f).verdict = .met :=
  claim_C10_theorem gender_any patient_f "female" rfl rfl rfl rfl (by decide)

/-- Claim C3 (corrected), counterexample to the claim as stated: a group
whose subgroups reach itself does NOT always evaluate to INSUFFICIENT_DATA —
an OR group containing a MET criterion next to the self-reference evaluates
to MET; the cycle verdict and reasoning live on the re-entered inner node. -/
theorem claim_C3_counterexample :
    (evaluate_group cyc_policy patient_f cyc_group).verdict = .met
      ∧ CriterionVerdict.met ≠ CriterionVerdict.insufficient_data := by
  refine ⟨rfl, by decide⟩

/-- Claim C3 (amended): evaluation terminates on every policy (the fuel
used by `evaluate_group` always suffices, cycles included); a group id
re-entered along the current path yields INSUFFICIENT_DATA with reasoning
"Circular group reference detected" on the re-entered occurrence; a group
whose only child is itself evaluates to INSUFFICIENT_DATA with the cycle
node inside it (its own reasoning is empty); and a diamond DAG is evaluated
once per reaching path without being reported as a cycle. -/
theorem claim_C3_theorem :
    (∀ (pol : DigitizedPolicy) (pat : NormalizedPatientData) (g : CriterionGroup)
        (visited : List String),
      (eval_group_fuel pol pat (group_fuel pol) g visited).isSome)
    ∧ (∀ (pol : DigitizedPolicy) (pat : NormalizedPatientData) (fuel : Nat)
        (g : CriterionGroup) (visited : List String),
        g.group_id ∈ visited →
        eval_group_fuel pol pat (fuel + 1) g visited = some (cycle_evaluation g))
    ∧ evaluate_group loop_policy empty_patient loop_group
        = .mk "L" "AND" .insufficient_data "" [] [cycle_evaluation loop_group]
    ∧ ((evaluate_group dia_policy patient_f dia_P).subgroup_results.map
        (fun sg => sg.subgroup_results.map (fun d => (d.group_id, d.verdict, d.reasoning))))
        = [[("D", .met, "")], [("D", .met, "")]] := by
  refine ⟨fun pol pat g visited => evaluate_group_total pol pat g visited, ?_, ?_, ?_⟩
  · intro pol pat fuel g visited h
    unfold eval_group_fuel
    rw [if_pos h]
  · rfl
  · rfl

/-- Witness for claim C3: the cycle-detection conjunct applied to the
self-loop fixture with its id already on the path. -/
theorem claim_C3_witness :
    eval_group_fuel loop_policy empty_patient 1 loop_group ["L"]
      = some (cycle_evaluation loop_group) :=
  claim_C3_theorem.2.1 loop_policy empty_patient 0 loop_group ["L"] (by simp [loop_group])

/-- Claim C4 (corrected), counterexample to the claim as stated: an
indication whose initial_approval_criteria id does not resolve is evaluated
with overall_verdict INSUFFICIENT_DATA (which propagates to the policy's
overall verdict), not NOT_APPLICABLE. -/
theorem claim_C4_counterexample :
    (evaluate_policy bad_policy empty_patient).indication_evaluations.map (·.overall_verdict)
        = [.insufficient_data]
      ∧ (evaluate_policy bad_policy empty_patient).overall_verdict = .insufficient_data
      ∧ CriterionVerdict.insufficient_data ≠ CriterionVerdict.not_applicable := by
  refine ⟨rfl, rfl, by decide⟩

/-- Claim C4 (amended): unresolved criterion and subgroup references inside
a group are skipped — evaluating a group equals evaluating it with those
references removed, which makes them transparent under AND/OR exactly like
NOT_APPLICABLE — and an indication whose initial_approval_criteria id does
not resolve is evaluated with overall_verdict INSUFFICIENT_DATA, zero
counts and no group result; no exception is raised in either case (the
embedded evaluation is total). -/
theorem claim_C4_theorem :
    (∀ (pol : DigitizedPolicy) (pat : NormalizedPatientData) (fuel : Nat)
        (g : CriterionGroup) (visited : List String),
      eval_group_fuel pol pat fuel (prune_unresolved pol g) visited
        = eval_group_fuel pol pat fuel g visited)
    ∧ (∀ (pol : DigitizedPolicy) (pat : NormalizedPatientData) (ind : IndicationCriteria),
        pol.get_group ind.initial_approval_criteria = none →
        eval_indication pol pat ind =
          { indication_id := ind.indication_id
            indication_name := ind.indication_name
            overall_verdict := .insufficient_data
            approval_criteria_result := none
            criteria_met_count := 0
            criteria_total_count := 0
            unmet_criteria := []
            insufficient_criteria := [] }) := by
  refine ⟨fun pol pat => eval_group_fuel_prune pol pat, ?_⟩
  intro pol pat ind h
  unfold eval_indication
  rw [h]

/-- Witness for claim C4: the dangling-indication conjunct applied to the
fixture policy whose only indication points at a missing group. -/
theorem claim_C4_witness :
    eval_indication bad_policy empty_patient bad_ind =
      { indication_id := "I1"
        indication_name := "Ind"
        overall_verdict := .insufficient_data
        approval_criteria_result := none
        criteria_met_count := 0
        criteria_total_count := 0
        unmet_criteria := []
        insufficient_criteria := [] } :=
  claim_C4_theorem.2 bad_policy empty_patient bad_ind rfl

/-- Claim C5 (corrected), counterexample to the claim as stated: for a
policy whose indications list is empty the source sets overall_verdict to
INSUFFICIENT_DATA, not NOT_APPLICABLE. -/
theorem claim_C5_counterexample :
    no_ind_policy.indications = []
      ∧ (evaluate_policy no_ind_policy empty_patient).overall_verdict = .insufficient_data
      ∧ CriterionVerdict.insufficient_data ≠ CriterionVerdict.not_applicable := by
  refine ⟨rfl, rfl, by decide⟩

/-- Claim C5 (amended): with a NONEMPTY indications list, overall_verdict
is the best indication verdict in the order MET > INSUFFICIENT_DATA >
NOT_MET, and NOT_APPLICABLE when no indication produced any of those three;
with an empty indications list it is INSUFFICIENT_DATA. -/
theorem claim_C5_theorem :
    ∀ (pol : DigitizedPolicy) (pat : NormalizedPatientData),
    (evaluate_policy pol pat).overall_verdict =
      if pol.indications.isEmpty then .insufficient_data
      else spec_best ((evaluate_policy pol pat).indication_evaluations.map (·.overall_verdict)) := by
  intro pol pat
  have hproj : (evaluate_policy pol pat).indication_evaluations
      = pol.indications.map (eval_indication pol pat) := rfl
  have hov : (evaluate_policy pol pat).overall_verdict
      = (if (pol.indications.map (eval_indication pol pat)).isEmpty then .insufficient_data
        else best_verdict_loop (pol.indications.map (eval_indication pol pat)) .not_met false) := rfl
  rw [hov, hproj]
  have hemp : (pol.indications.map (eval_indication pol pat)).isEmpty = pol.indications.isEmpty := by
    cases pol.indications <;> rfl
  rw [hemp]
  by_cases hind : pol.indications.isEmpty
  · rw [if_pos hind, if_pos hind]
  · rw [if_neg hind, if_neg hind]
    rw [best_verdict_loop_char]
    cases hs : spec_best ((pol.indications.map (eval_indication pol pat)).map (·.overall_verdict)) <;>
      rfl

/-- Claim C6 (corrected), counterexample to the claim as stated: on a
policy with one MET criterion out of three, the source reports
overall_readiness 0.333 (the ratio rounded to three decimal places), which
differs from the exact ratio 1/3 the claim asserts. -/
theorem claim_C6_counterexample :
    ((evaluate_policy one_third_policy patient_age39).indication_evaluations.map
        (·.criteria_met_count)).sum = 1
      ∧ ((evaluate_policy one_third_policy patient_age39).indication_evaluations.map
          (·.criteria_total_count)).sum = 3
      ∧ (evaluate_policy one_third_policy patient_age39).overall_readiness = mkRat 333 1000
      ∧ (mkRat 333 1000 : ℚ) = 333/1000
      ∧ (mkRat 1 3 : ℚ) = (1 : ℚ)/3
      ∧ (333/1000 : ℚ) ≠ (1 : ℚ)/3 := by
  refine ⟨rfl, rfl, by decide, by norm_num [Rat.mkRat_eq_div],
    by norm_num [Rat.mkRat_eq_div], by norm_num⟩

/-- Claim C6 (amended): overall_readiness equals the count of MET criterion
evaluations across all indication sub-trees divided by the total number of
criterion evaluations there, ROUNDED to three decimal places (and 0 when
there are no evaluations); stated against the per-indication counts carried
by the result. -/
theorem claim_C6_theorem :
    ∀ (pol : DigitizedPolicy) (pat : NormalizedPatientData),
    (evaluate_policy pol pat).overall_readiness =
      (let tot : Nat := ((evaluate_policy pol pat).indication_evaluations.map
        (·.criteria_total_count)).sum
       let met : Nat := ((evaluate_policy pol pat).indication_evaluations.map
        (·.criteria_met_count)).sum
       round3 (if 0 < tot then (met : ℚ) / (tot : ℚ) else 0)) := by
  intro pol pat
  have hproj : (evaluate_policy pol pat).indication_evaluations
      = pol.indications.map (eval_indication pol pat) := rfl
  have hread : (evaluate_policy pol pat).overall_readiness
      = round3 (if 0 < ((pol.indications.map (eval_indication pol pat)).flatMap
            (fun ie => collect_all_criteria_evals ie.approval_criteria_result)).length
        then mkRat (((((pol.indications.map (eval_indication pol pat)).flatMap
              (fun ie => collect_all_criteria_evals ie.approval_criteria_result)).filter
                (fun e => e.verdict = .met)).length : Nat) : Int)
            (((pol.indications.map (eval_indication pol pat)).flatMap
              (fun ie => collect_all_criteria_evals ie.approval_criteria_result)).length)
        else 0) := rfl
  have htot : ((pol.indications.map (eval_indication pol pat)).flatMap
        (fun ie => collect_all_criteria_evals ie.approval_criteria_result)).length
      = ((pol.indications.map (eval_indication pol pat)).map (·.criteria_total_count)).sum := by
    rw [length_flatMap_eq_sum, List.map_map, List.map_map]
    refine congrArg List.sum (List.map_congr_left ?_)
    intro ind _
    exact ((eval_indication_counts pol pat ind).1).symm
  have hmet : (((pol.indications.map (eval_indication pol pat)).flatMap
        (fun ie => collect_all_criteria_evals ie.approval_criteria_result)).filter
          (fun e => e.verdict = .met)).length
      = ((pol.indications.map (eval_indication pol pat)).map (·.criteria_met_count)).sum := by
    rw [length_filter_flatMap_eq_sum, List.map_map, List.map_map]
    refine congrArg List.sum (List.map_congr_left ?_)
    intro ind _
    exact ((eval_indication_counts pol pat ind).2).symm
  rw [hread, hproj, htot, hmet]
  show round3 _ = round3 _
  congr 1
  by_cases hpos :
      0 < ((pol.indications.map (eval_indication pol pat)).map (·.criteria_total_count)).sum
  · rw [if_pos hpos, if_pos hpos, Rat.mkRat_eq_div, Int.cast_natCast]
  · rw [if_neg hpos, if_neg hpos]

/-- Claim C7 (confirmed): the step-therapy evaluator maps each requirement
to a result whose drugs_tried counts the required drugs followed by the
required drug classes that have a first matching prior treatment, whose
drugs_failed counts those whose first matching treatment has outcome
failed/inadequate_response/partial_response/steroid_dependent, or
intolerant when intolerance_acceptable, or contraindicated when
contraindication_acceptable, and which is satisfied exactly when
drugs_failed reaches minimum_trials; hence a single intolerant trial
satisfies a requirement with minimum_trials 1 and intolerance_acceptable. -/
theorem claim_C7_theorem :
    (∀ (pol : DigitizedPolicy) (pat : NormalizedPatientData),
      (evaluate_step_therapy pol pat).details
        = pol.step_therapy_requirements.map (st_requirement_result pat))
    ∧ (∀ (pat : NormalizedPatientData) (req : StepTherapyRequirement),
        (st_requirement_result pat req).drugs_tried
          = (req.required_drugs ++ req.required_drug_classes).countP (fun item =>
              (pat.prior_treatments.find? (st_tx_matches (py_lower item))).isSome))
    ∧ (∀ (pat : NormalizedPatientData) (req : StepTherapyRequirement),
        (st_requirement_result pat req).drugs_failed
          = (req.required_drugs ++ req.required_drug_classes).countP (fun item =>
              match pat.prior_treatments.find? (st_tx_matches (py_lower item)) with
              | some tx => (st_outcome_detail req tx).isSome
              | none => false))
    ∧ (∀ (req : StepTherapyRequirement) (tx : NormalizedTreatment),
        (st_outcome_detail req tx).isSome = true ↔
          ((∃ o, tx.outcome = some o ∧ o ∈ failed_outcomes)
            ∨ (tx.outcome = some "intolerant" ∧ req.intolerance_acceptable = true)
            ∨ (tx.outcome = some "contraindicated" ∧ req.contraindication_acceptable = true)))
    ∧ (∀ (pat : NormalizedPatientData) (req : StepTherapyRequirement),
        (st_requirement_result pat req).satisfied = true
          ↔ req.minimum_trials ≤ (st_requirement_result pat req).drugs_failed)
    ∧ ((evaluate_step_therapy s4_policy s4_patient).satisfied = true
        ∧ (evaluate_step_therapy s4_policy s4_patient).details.map (·.drugs_failed) = [1]) := by
  refine ⟨?_, ?_, ?_, st_outcome_detail_isSome_iff, ?_, by decide, by decide⟩
  · intro pol pat
    cases h : pol.step_therapy_requirements with
    | nil => simp [evaluate_step_therapy, h]
    | cons r rest => simp [evaluate_step_therapy, h]
  · intro pat req
    show (st_items_loop req pat (req.required_drugs ++ req.required_drug_classes) 0 0 []).1 = _
    rw [st_items_loop_tried]
    omega
  · intro pat req
    show (st_items_loop req pat (req.required_drugs ++ req.required_drug_classes) 0 0 []).2.1 = _
    rw [st_items_loop_failed]
    omega
  · intro pat req
    exact decide_eq_true_iff

/-- Witness for claim C7: the scenario S4 conjunct, extracted by applying
the theorem. -/
theorem claim_C7_witness :
    (evaluate_step_therapy s4_policy s4_patient).satisfied = true :=
  claim_C7_theorem.2.2.2.2.2.1

/-- Claim C8 (corrected), counterexample to the claim as stated: a case
where a diff-changed criterion produced different verdicts under the two
versions but the overall verdict stayed MET is classified no_impact, not
at_risk. -/
theorem claim_C8_counterexample :
    find_affected_criteria c8_old_result c8_new_result c8_diff = ["C1"]
      ∧ c8_old_result.overall_verdict = .met
      ∧ c8_new_result.overall_verdict = .met
      ∧ (classify_risk c8_old_result.overall_verdict c8_new_result.overall_verdict
          (find_affected_criteria c8_old_result c8_new_result c8_diff)).1 = "no_impact"
      ∧ "no_impact" ≠ "at_risk" := by
  refine ⟨rfl, rfl, rfl, rfl, by decide⟩

/-- Claim C8 (amended): a case is classified at_risk exactly when it is not
a verdict_flip and either the overall verdict changed from
INSUFFICIENT_DATA (old) to NOT_MET (new), or some diff-changed criterion
produced a different verdict across the two runs AND the new overall
verdict is INSUFFICIENT_DATA. -/
theorem claim_C8_theorem :
    ∀ (old_verdict new_verdict : CriterionVerdict) (affected : List String),
    (classify_risk old_verdict new_verdict affected).1 = "at_risk"
      ↔ ((old_verdict = .insufficient_data ∧ new_verdict = .not_met)
        ∨ (affected ≠ [] ∧ new_verdict = .insufficient_data ∧ old_verdict ≠ .met)) := by
  intro old_verdict new_verdict affected
  cases old_verdict <;> cases new_verdict <;> cases affected <;>
    simp [classify_risk]

/-- Witness for claim C8: the theorem applied to the
INSUFFICIENT_DATA-to-NOT_MET deterioration. -/
theorem claim_C8_witness :
    (classify_risk .insufficient_data .not_met []).1 = "at_risk" :=
  (claim_C8_theorem .insufficient_data .not_met []).mpr (Or.inl ⟨rfl, rfl⟩)

/-- Claim C9 (confirmed): when Pass 1 yields zero atomic criteria and zero
indications, digitalize_policy raises the extraction error before Pass 2 or
Pass 3 run and the repository state is returned unchanged (no store). -/
theorem claim_C9_theorem :
    ∀ (deps : PipelineDeps) (repo : List DigitizedPolicy)
      (source source_type : String) (skip_validation : Bool),
    (if source_type = "pdf" then deps.extract_from_pdf source
      else deps.extract_from_text source).extracted_data.atomic_criteria = [] →
    (if source_type = "pdf" then deps.extract_from_pdf source
      else deps.extract_from_text source).extracted_data.indications = [] →
    digitalize_policy deps repo source source_type skip_validation =
      (.error ("Pass 1 returned empty extraction (no criteria or indications). Source length: "
          ++ toString source.length ++ " chars, model: "
          ++ opt_display (if source_type = "pdf" then deps.extract_from_pdf source
              else deps.extract_from_text source).extraction_model),
        repo, { pass2_ran := false, pass3_ran := false, stored := false }) := by
  intro deps repo source source_type skip h1 h2
  simp [digitalize_policy, h1, h2]

/-- Witness for claim C9: the theorem applied to constant collaborators
whose extraction is empty. -/
theorem claim_C9_witness :
    digitalize_policy const_deps [] "" "text" false =
      (.error ("Pass 1 returned empty extraction (no criteria or indications). "
          ++ "Source length: 0 chars, model: None"),
        [], { pass2_ran := false, pass3_ran := false, stored := false }) := by
  have h := claim_C9_theorem const_deps [] "" "text" false rfl rfl
  simpa using h

end PolicyCore
